import Mathlib

/-!
Verification of the agent-based surface-dwelling simulation in
`src/A4/agent_builder.py` and `src/A4/agent_simulator.py`.

The Python code is shallowly embedded below.  Conventions:

* Python floats are modelled by real numbers `ℝ` (exact arithmetic).
* The `rhinoscriptsyntax` vector/point helpers are pure vector algebra and are
  embedded directly: `rs.VectorAdd`/`rs.PointAdd` are `+` on `Vec3`,
  `rs.VectorCreate(to_point, from_point)` is `to_point - from_point`,
  `rs.VectorScale v t` is `scale t v`, `rs.VectorLength` is `norm3`,
  `rs.VectorUnitize` is `unitize` and `rs.Distance p q` is `dist3 p q`.
  (`rs.VectorUnitize` of a zero vector is never reached by the source: every
  call is guarded by a positive length test; the total model returns the zero
  vector there.)
* The surface (`start_surface`) together with the remaining `rs.Surface*`
  queries is the external geometry service; it is a parameter of type
  `Oracle`.  `rs.EvaluateSurface` is modelled as total (the source's
  `None`-checks for it become dead branches), while `rs.SurfaceClosestPoint`
  and `rs.SurfaceCurvature` keep their fallible `Option` results, matching
  the source's `None`/exception fallbacks.
* Python's global `random` module is a deterministic stream fixed by the seed
  and consumed in program order; it is modelled by `Rng` (a stream of unit
  draws plus a cursor).  `random.uniform(a, b)` is `uniform a b u` where `u`
  is the next unit draw, exactly CPython's `a + (b-a)*random()`.
* `uuid.uuid4().hex` produces a fresh identifier; identifiers are modelled by
  a natural-number counter threaded through the step (the simulation only
  ever compares identifiers for equality).
* An agent's `neighbors` list stores references to other agents together with
  the distance; between the moment a reference is stored (in `sense`) and the
  moment it is read (in `decide`) no other agent mutates, and only
  `other.position` is ever read from it, so a stored reference is modelled by
  the `Contact` record (identifier and position at sensing time).
-/

noncomputable section

/-- A 3D point / vector, as used by the `rhinoscriptsyntax` helpers. -/
structure Vec3 where
  x : ℝ
  y : ℝ
  z : ℝ

namespace Vec3

@[ext] theorem ext3 {u v : Vec3} (hx : u.x = v.x) (hy : u.y = v.y) (hz : u.z = v.z) :
    u = v := by
  cases u; cases v; simp_all

instance : Zero Vec3 := ⟨⟨0, 0, 0⟩⟩

instance : Add Vec3 := ⟨fun u v => ⟨u.x + v.x, u.y + v.y, u.z + v.z⟩⟩

instance : Sub Vec3 := ⟨fun u v => ⟨u.x - v.x, u.y - v.y, u.z - v.z⟩⟩

theorem zero_def : (0 : Vec3) = ⟨0, 0, 0⟩ := rfl

theorem add_def (u v : Vec3) : u + v = ⟨u.x + v.x, u.y + v.y, u.z + v.z⟩ := rfl

theorem sub_def (u v : Vec3) : u - v = ⟨u.x - v.x, u.y - v.y, u.z - v.z⟩ := rfl

instance : AddCommMonoid Vec3 where
  add_assoc u v w := by ext <;> simp [add_def] <;> ring
  zero_add v := by ext <;> simp [add_def, zero_def]
  add_zero v := by ext <;> simp [add_def, zero_def]
  add_comm u v := by ext <;> simp [add_def] <;> ring
  nsmul := nsmulRec

end Vec3

/-- `rs.VectorScale v t`: componentwise scaling. -/
def scale (t : ℝ) (v : Vec3) : Vec3 := ⟨t * v.x, t * v.y, t * v.z⟩

/-- `rs.VectorLength`: Euclidean length. -/
def norm3 (v : Vec3) : ℝ := Real.sqrt (v.x ^ 2 + v.y ^ 2 + v.z ^ 2)

/-- `rs.VectorUnitize`: scale to unit length (total model; all source calls
are guarded by a positive length test). -/
def unitize (v : Vec3) : Vec3 := scale (1 / norm3 v) v

/-- `rs.Distance`: Euclidean distance between two points. -/
def dist3 (p q : Vec3) : ℝ := norm3 (p - q)

/-- The deterministic pseudorandom source: Python's `random` module after
seeding, as a stream of unit-interval draws plus a cursor.  The simulation
consumes draws strictly in program order. -/
structure Rng where
  stream : ℕ → ℝ
  idx : ℕ

/-- `random.random()`: take the next unit draw and advance the cursor. -/
def Rng.next (r : Rng) : ℝ × Rng := (r.stream r.idx, ⟨r.stream, r.idx + 1⟩)

/-- `random.uniform(a, b)` applied to a unit draw `u`: CPython computes
`a + (b-a)*u`. -/
def uniform (a b u : ℝ) : ℝ := a + (b - a) * u

/-- One step of a linear congruential generator; stands in for the state
transition of Python's seeded Mersenne twister (the claims depend only on the
stream being a fixed deterministic function of the seed). -/
def lcgStep (s : ℕ) : ℕ := (1103515245 * s + 12345) % 2147483648

/-- Iterated generator state, starting from the seed. -/
def lcgIter : ℕ → ℕ → ℕ
  | 0, s => lcgStep s
  | n + 1, s => lcgStep (lcgIter n s)

/-- `seed_everything(seed)` (src/A4/agent_builder.py:37-40): seeding the global
pseudorandom source yields the deterministic stream of unit draws consumed by
the whole simulation. -/
def mkRng (seed : ℕ) : Rng := ⟨fun n => (lcgIter n seed : ℝ) / 2147483648, 0⟩

/-- The external geometry service consumed by the simulation: the
`start_surface` together with the `rs.Surface*` queries. -/
structure Oracle where
  /-- Parameter-domain bounds in u, as `rs.SurfaceDomain(surface, 0)`. -/
  domU : ℝ × ℝ
  /-- Parameter-domain bounds in v, as `rs.SurfaceDomain(surface, 1)`. -/
  domV : ℝ × ℝ
  /-- `rs.EvaluateSurface` (modelled total). -/
  evaluate : ℝ → ℝ → Vec3
  /-- `rs.SurfaceClosestPoint`; `none` models both a `None` result and a
  raised exception (which every caller swallows). -/
  closestParam : Vec3 → Option (ℝ × ℝ)
  /-- `rs.SurfaceCurvature`, reduced to the entries the source reads:
  principal curvatures `k1 = curv[2]`, `k2 = curv[3]` and principal direction
  `dir1 = curv[4]`; `none` models a `None`/short result or an exception. -/
  surfaceCurvature : ℝ × ℝ → Option (ℝ × ℝ × Vec3)

/-- A stored neighbor reference, as read by `decide`: the referenced agent's
identifier and its position at sensing time. -/
structure Contact where
  id : ℕ
  position : Vec3

/-- The per-agent record (class `Agent`, src/A4/agent_builder.py:123-138). -/
structure Agent where
  id : ℕ
  position : Vec3
  velocity : Vec3
  age : ℕ
  is_alive : Bool
  path : List Vec3
  uv : Option (ℝ × ℝ)
  curvature_mean : ℝ
  curvature_dir : Vec3
  slope_vector : Vec3
  slope_magnitude : ℝ
  neighbors : List (Contact × ℝ)

/-- The externally supplied configuration.  The first six fields are the
Grasshopper inputs forwarded by `MyComponent.RunScript`; the last five are the
keyword defaults of `Agent.update` (never overridden by either caller). -/
structure Params where
  visionRadius : Option ℝ
  maxSpeed : ℝ
  maxSlope : ℝ
  alignmentWeight : ℝ
  separationWeight : ℝ
  jitter : ℝ
  maxAge : ℕ
  slopeKill : ℝ
  curvatureSpawn : ℝ
  spawnChance : ℝ
  maxNeighbors : ℕ

/-- The parameter record used by `agent.update(agents, start_surface)` in
src/A4/agent_simulator.py:18, i.e. all keyword defaults of `Agent.update`. -/
def defaultParams : Params :=
  ⟨some 1.0, 0.5, 0.8, 0.05, 0.12, 0.01, 200, 1.2, 0.15, 0.02, 6⟩

/-- The parameter record built by `MyComponent.RunScript` from its six
Grasshopper inputs; the lifecycle fields keep the `Agent.update` defaults. -/
def runScriptParams (vr : Option ℝ) (ms msl aw sw j : ℝ) : Params :=
  ⟨vr, ms, msl, aw, sw, j, 200, 1.2, 0.15, 0.02, 6⟩

/-- `Agent.__init__` (src/A4/agent_builder.py:125-138); `idv` models the fresh
`uuid.uuid4().hex`. -/
def Agent.init (idv : ℕ) (position velocity : Vec3) : Agent :=
  { id := idv
    position := position
    velocity := velocity
    age := 0
    is_alive := true
    path := [position]
    uv := none
    curvature_mean := 0
    curvature_dir := 0
    slope_vector := 0
    slope_magnitude := 0
    neighbors := [] }

/-- `get_uv` (src/A4/agent_builder.py:59-62). -/
def get_uv (o : Oracle) (point : Vec3) : Option (ℝ × ℝ) := o.closestParam point

/-- `sample_curvature` (src/A4/agent_builder.py:64-77).  The `not surface or
not uv` guard is dead in the model (the only caller passes a present uv); the
`curv`-absent and exception paths are the `none` branch. -/
def sample_curvature (o : Oracle) (uv : ℝ × ℝ) : ℝ × Vec3 :=
  match o.surfaceCurvature uv with
  | none => (0, 0)
  | some (k1, k2, dir1) => (0.5 * (k1 + k2), dir1)

/-- `sample_slope` (src/A4/agent_builder.py:79-97) with `step = 1e-3`;
`rs.EvaluateSurface` is total in the model, so the `None`-point guard is
dead. -/
def sample_slope (o : Oracle) (uv : ℝ × ℝ) : Vec3 × ℝ :=
  let step : ℝ := 1e-3
  let p0 := o.evaluate uv.1 uv.2
  let pu := o.evaluate (uv.1 + step) uv.2
  let pv := o.evaluate uv.1 (uv.2 + step)
  let slope_vec := (pu - p0) + (pv - p0)
  (slope_vec, norm3 slope_vec)

/-- `Agent.sense` (src/A4/agent_builder.py:140-157): refresh the geometric
cache when projection succeeds (`self.uv` itself is assigned the raw
projection result first), then rebuild the neighbor list. -/
def Agent.sense (a : Agent) (agents : List Agent) (o : Oracle)
    (vision_radius : Option ℝ) : Agent :=
  let a1 : Agent :=
    match get_uv o a.position with
    | some q =>
        { a with
          uv := some q
          curvature_mean := (sample_curvature o q).1
          curvature_dir := (sample_curvature o q).2
          slope_vector := (sample_slope o q).1
          slope_magnitude := (sample_slope o q).2 }
    | none => { a with uv := none }
  match vision_radius with
  | none => { a1 with neighbors := [] }
  | some r =>
      { a1 with
        neighbors :=
          agents.filterMap fun other =>
            if other.id = a.id then none
            else if dist3 a.position other.position ≤ r then
              some (⟨other.id, other.position⟩, dist3 a.position other.position)
            else none }

/-- The slope-resistance factor (src/A4/agent_builder.py:166-167).  Python's
`... if max_slope else 1.0` tests truthiness, i.e. `max_slope ≠ 0`. -/
def resistanceOf (slope_mag max_slope : ℝ) : ℝ :=
  if max_slope ≠ 0 then max 0.2 (1.0 - slope_mag / max_slope) else 1.0

/-- The curvature-alignment stage of `Agent.decide`
(src/A4/agent_builder.py:171-174). -/
def alignStage (a : Agent) (alignment_weight : ℝ) (v : Vec3) : Vec3 :=
  if norm3 a.curvature_dir > 1e-6 then
    let align_w := alignment_weight * (if |a.curvature_mean| < 0.1 then 4.0 else 1.0)
    v + scale align_w (unitize a.curvature_dir)
  else v

/-- The accumulated neighbor vector `away` of `Agent.decide`
(src/A4/agent_builder.py:178-182): starting from the zero vector, for every
stored neighbor `(other, dist)` with `rs.VectorCreate(self.position,
other.position) = self.position - other.position` of positive length, add
that vector unitized and scaled by `1 / max(dist, 1e-6)`. -/
def awayVector (a : Agent) : Vec3 :=
  a.neighbors.foldl
    (fun acc pr =>
      if norm3 (a.position - pr.1.position) > 1e-9 then
        acc + scale (1.0 / max pr.2 1e-6) (unitize (a.position - pr.1.position))
      else acc)
    0

/-- The neighbor-interaction ("separation") stage of `Agent.decide`
(src/A4/agent_builder.py:177-187). -/
def sepStage (a : Agent) (separation_weight : ℝ) (v : Vec3) : Vec3 :=
  if a.neighbors.isEmpty then v
  else
    let away := awayVector a
    if norm3 away > 1e-9 then v + scale separation_weight (unitize away) else v

/-- The speed clamp of `Agent.decide` (src/A4/agent_builder.py:190-192). -/
def clampStage (max_speed : ℝ) (v : Vec3) : Vec3 :=
  if norm3 v > max_speed then scale max_speed (unitize v) else v

/-- `Agent.decide` (src/A4/agent_builder.py:159-199): slope resistance,
curvature alignment, neighbor interaction, speed clamp, then anti-stall
jitter (the only stage consuming random draws, and only when it fires). -/
def Agent.decide (a : Agent) (max_speed max_slope alignment_weight
    separation_weight jitter : ℝ) (rng : Rng) : Agent × Rng :=
  if !a.is_alive then (a, rng)
  else
    let v1 := scale (resistanceOf a.slope_magnitude max_slope) a.velocity
    let v2 := alignStage a alignment_weight v1
    let v3 := sepStage a separation_weight v2
    let v4 := clampStage max_speed v3
    if norm3 v4 < 1e-4 then
      let (u1, rng1) := rng.next
      let (u2, rng2) := rng1.next
      ({ a with velocity := v4 + ⟨uniform (-jitter) jitter u1,
                                  uniform (-jitter) jitter u2, 0⟩ }, rng2)
    else ({ a with velocity := v4 }, rng)

/-- `Agent.move` (src/A4/agent_builder.py:201-207): explicit Euler step,
re-projection onto the surface when the closest-point query succeeds, and an
unconditional append to the trail. -/
def Agent.move (a : Agent) (o : Oracle) : Agent :=
  if !a.is_alive then a
  else
    let new_pos := a.position + a.velocity
    let pos1 :=
      match o.closestParam new_pos with
      | some q => o.evaluate q.1 q.2
      | none => new_pos
    { a with position := pos1, path := a.path ++ [pos1] }

/-- `spawn_agent_near` (src/A4/agent_builder.py:101-116) with the default
`offset` passed explicitly; draw order is jitter-x, jitter-y, velocity-x,
velocity-y, exactly as the source lines execute.  `idv` models the fresh
uuid drawn by `Agent.__init__`. -/
def spawn_agent_near (a : Agent) (o : Oracle) (offset : ℝ) (rng : Rng)
    (idv : ℕ) : Agent × Rng :=
  let (u1, rng1) := rng.next
  let (u2, rng2) := rng1.next
  let cand := a.position + ⟨uniform (-offset) offset u1, uniform (-offset) offset u2, 0⟩
  let new_pos :=
    match o.closestParam cand with
    | some q => o.evaluate q.1 q.2
    | none => cand
  let (u3, rng3) := rng2.next
  let (u4, rng4) := rng3.next
  (Agent.init idv new_pos ⟨uniform (-0.05) 0.05 u3, uniform (-0.05) 0.05 u4, 0⟩, rng4)

/-- The post-motion part of `Agent.update` (src/A4/agent_builder.py:223-240):
age increment, the death rule, and the spawn rule.  `nid` is the fresh-id
counter standing in for uuid generation. -/
def Agent.lifecycle (a : Agent) (o : Oracle) (p : Params) (rng : Rng)
    (nid : ℕ) : Agent × Option Agent × Rng × ℕ :=
  let aged := { a with age := a.age + 1 }
  if aged.age > p.maxAge ∨ aged.slope_magnitude > p.slopeKill then
    ({ aged with is_alive := false }, none, rng, nid)
  else
    let prob := p.spawnChance
    let prob := if |aged.curvature_mean| > p.curvatureSpawn then prob * 3.0 else prob
    let prob := if aged.neighbors.length > p.maxNeighbors then 0.0 else prob
    let (u, rng1) := rng.next
    if u < prob then
      let (child, rng2) := spawn_agent_near aged o 0.2 rng1 nid
      (aged, some child, rng2, nid + 1)
    else (aged, none, rng1, nid)

/-- `Agent.update` (src/A4/agent_builder.py:209-240): full lifecycle update of
one agent against the current agent list.  Returns the updated agent, the
spawned child (if any), the advanced random stream and the advanced fresh-id
counter. -/
def Agent.update (a : Agent) (agents : List Agent) (o : Oracle) (p : Params)
    (rng : Rng) (nid : ℕ) : Agent × Option Agent × Rng × ℕ :=
  if !a.is_alive then (a, none, rng, nid)
  else
    let a1 := a.sense agents o p.visionRadius
    let dr := a1.decide p.maxSpeed p.maxSlope p.alignmentWeight
      p.separationWeight p.jitter rng
    let a2 := dr.1
    let a3 := a2.move o
    a3.lifecycle o p dr.2 nid

/-- The mutable state of one population step: the shared agent list being
updated in place, the `active_agents` and `new_agents` accumulators, the
random stream and the fresh-id counter. -/
structure StepState where
  cur : List Agent
  act : List Agent
  news : List Agent
  rng : Rng
  nid : ℕ

/-- A junk agent standing in for an out-of-range list read; the step loops
only ever access in-range indices. -/
def junkAgent : Agent := Agent.init 0 0 0

/-- The shared loop body of both step drivers: Python's
`for agent in agents: spawned = agent.update(agents, ...)` iterates the index
range of the list while each `update` mutates the current element in place,
so each later agent observes the already-updated states of earlier ones.
`active_agents` collects the agent after its update when it is still alive
(src/A4/agent_builder.py:282-291); `new_agents` collects spawned children in
order. -/
def stepLoop (o : Oracle) (p : Params) : List ℕ → StepState → StepState
  | [], s => s
  | i :: rest, s =>
      let a := s.cur.getD i junkAgent
      let r := a.update s.cur o p s.rng s.nid
      let cur1 := s.cur.set i r.1
      let act1 := if r.1.is_alive then s.act ++ [r.1] else s.act
      let news1 :=
        match r.2.1 with
        | some c => s.news ++ [c]
        | none => s.news
      stepLoop o p rest ⟨cur1, act1, news1, r.2.2.1, r.2.2.2⟩

/-- One population step as driven by `MyComponent.RunScript`
(src/A4/agent_builder.py:279-293): update every agent sequentially over the
shared list, then replace the population by `active_agents + new_agents`. -/
def runStep (o : Oracle) (p : Params) (pop : List Agent) (rng : Rng)
    (nid : ℕ) : List Agent × Rng × ℕ :=
  let s := stepLoop o p (List.range pop.length) ⟨pop, [], [], rng, nid⟩
  (s.act ++ s.news, s.rng, s.nid)

/-- One population step as driven by the standalone simulator
(src/A4/agent_simulator.py:15-23): update every agent sequentially over the
shared list with the `Agent.update` defaults, then set
`agents = agents + new_agents` — the mutated original list (dead agents
included) followed by the spawned children. -/
def simStep (o : Oracle) (pop : List Agent) (rng : Rng) (nid : ℕ) :
    List Agent × Rng × ℕ :=
  let s := stepLoop o defaultParams (List.range pop.length) ⟨pop, [], [], rng, nid⟩
  (s.cur ++ s.news, s.rng, s.nid)

/-- Modelled from the spec: the phase-2 body of a snapshot-semantics step —
decide, move and lifecycle for one already-sensed agent, skipping agents that
are not alive exactly as `Agent.update` does. -/
def snapshotPhase2 (a : Agent) (o : Oracle) (p : Params) (rng : Rng)
    (nid : ℕ) : Agent × Option Agent × Rng × ℕ :=
  if !a.is_alive then (a, none, rng, nid)
  else
    let dr := a.decide p.maxSpeed p.maxSlope p.alignmentWeight
      p.separationWeight p.jitter rng
    let a3 := dr.1.move o
    a3.lifecycle o p dr.2 nid

/-- Modelled from the spec: the phase-2 loop of a snapshot-semantics step over
the list of already-sensed agents, collecting survivors and children exactly
like the in-place loop. -/
def snapshotLoop (o : Oracle) (p : Params) :
    List Agent → List Agent → List Agent → Rng → ℕ →
    List Agent × List Agent × Rng × ℕ
  | [], act, news, rng, nid => (act, news, rng, nid)
  | a :: rest, act, news, rng, nid =>
      let r := snapshotPhase2 a o p rng nid
      let act1 := if r.1.is_alive then act ++ [r.1] else act
      let news1 :=
        match r.2.1 with
        | some c => news ++ [c]
        | none => news
      snapshotLoop o p rest act1 news1 r.2.2.1 r.2.2.2

/-- Modelled from the spec (§5): one population step with snapshot sensing
semantics — "implementations must evaluate sensing for all agents first …
before applying motion": every agent senses against the pre-step population,
and only then are decisions, motion and lifecycle applied in population
order. -/
def snapshotStep (o : Oracle) (p : Params) (pop : List Agent) (rng : Rng)
    (nid : ℕ) : List Agent × Rng × ℕ :=
  let sensed := pop.map fun a => a.sense pop o p.visionRadius
  let r := snapshotLoop o p sensed [] [] rng nid
  (r.1 ++ r.2.1, r.2.2.1, r.2.2.2)

/-- `generate_random_point_on_surface` (src/A4/agent_builder.py:49-57): a
uniform draw in each parameter domain, evaluated on the surface. -/
def generate_random_point_on_surface (o : Oracle) (rng : Rng) : Vec3 × Rng :=
  let (u1, rng1) := rng.next
  let u := uniform o.domU.1 o.domU.2 u1
  let (u2, rng2) := rng1.next
  let v := uniform o.domV.1 o.domV.2 u2
  (o.evaluate u v, rng2)

/-- `build_agents` (src/A4/agent_builder.py:247-256): the initial population;
per agent two domain draws for the position then two draws for the initial
velocity.  With total surface evaluation every sample succeeds. -/
def build_agents : ℕ → Oracle → Rng → ℕ → List Agent × Rng × ℕ
  | 0, _, rng, nid => ([], rng, nid)
  | n + 1, o, rng, nid =>
      let pr := generate_random_point_on_surface o rng
      let (u3, rng3) := pr.2.next
      let (u4, rng4) := rng3.next
      let a := Agent.init nid pr.1 ⟨uniform (-0.05) 0.05 u3, uniform (-0.05) 0.05 u4, 0⟩
      let rest := build_agents n o rng4 (nid + 1)
      (a :: rest.1, rest.2)

/-- The trailing Grasshopper recomputes of `MyComponent.RunScript`: each call
re-runs `seed_everything(seed)` (src/A4/agent_builder.py:274), so every step
after the first starts from the freshly seeded stream. -/
def ghLoop (seed : ℕ) (o : Oracle) (p : Params) :
    ℕ → List Agent → ℕ → List Agent
  | 0, pop, _ => pop
  | k + 1, pop, nid =>
      let r := runStep o p pop (mkRng seed) nid
      ghLoop seed o p k r.1 r.2.2

/-- A full simulation run of `MyComponent.RunScript` over `steps` Grasshopper
invocations: the first call seeds, builds the initial population and runs one
step on the continuing stream; each later call re-seeds and runs one step. -/
def simulate (seed n steps : ℕ) (o : Oracle) (p : Params) : List Agent :=
  match steps with
  | 0 => []
  | s + 1 =>
      let b := build_agents n o (mkRng seed) 0
      let r := runStep o p b.1 b.2.1 b.2.2
      ghLoop seed o p s r.1 r.2.2

/-- Modelled from the spec (§4.3 as quoted by the claim list): the claimed
neighbor-interaction accumulator
`away = Σ normalize(other.position − position) * (1 / max(distance, 1e-6))`,
summed over all stored neighbors.  It is compared against the source's
`awayVector` below. -/
def specAway (a : Agent) : Vec3 :=
  (a.neighbors.map fun pr =>
    scale (1.0 / max pr.2 1e-6) (unitize (pr.1.position - a.position))).sum

/-- A geometry service whose closest-point projection always fails: agents
move unprojected through free space and keep their cached fields. -/
def freeOracle : Oracle :=
  { domU := (0, 1)
    domV := (0, 1)
    evaluate := fun _ _ => 0
    closestParam := fun _ => none
    surfaceCurvature := fun _ => none }

/-- A geometry service that projects every point to parameter `(0, 0)` of the
plane-like surface `(u, v) ↦ (1000 (u + v), 0, 0)`; the finite-difference
slope sample at `(0, 0)` has magnitude `2`, well above the default
`slope_kill = 1.2`. -/
def steepOracle : Oracle :=
  { domU := (0, 1)
    domV := (0, 1)
    evaluate := fun u v => ⟨1000 * (u + v), 0, 0⟩
    closestParam := fun _ => some (0, 0)
    surfaceCurvature := fun _ => none }

/-- A unit-draw stream that always returns 1/2. -/
def halfRng : Rng := ⟨fun _ => 1 / 2, 0⟩

/-- A unit-draw stream that always returns 1 (the supremum of the draw
range). -/
def onesRng : Rng := ⟨fun _ => 1, 0⟩

/-- A fast agent at the origin. -/
def agentA : Agent := Agent.init 0 ⟨0, 0, 0⟩ ⟨10, 0, 0⟩

/-- A stationary agent one unit away from `agentA`. -/
def agentB : Agent := Agent.init 1 ⟨1, 0, 0⟩ ⟨0, 0, 0⟩

/-- `RunScript` inputs used for the sequential-sensing run: vision radius 1,
generous speed limit, zero separation weight and zero jitter amplitude. -/
def seqParams : Params := runScriptParams (some 1) 100 0.8 0.05 0 0

/-- A stationary agent at the origin with empty caches. -/
def zeroAgent : Agent := Agent.init 0 ⟨0, 0, 0⟩ ⟨0, 0, 0⟩

/-- A second stationary agent occupying exactly the same position as
`zeroAgent` but with a distinct identifier. -/
def coincAgent : Agent := Agent.init 1 ⟨0, 0, 0⟩ ⟨0, 0, 0⟩

/-- An agent holding a previously cached projection result. -/
def cachedAgent : Agent :=
  { Agent.init 0 ⟨0, 0, 0⟩ ⟨0, 0, 0⟩ with uv := some (1, 2), curvature_mean := 5 }

/-- An agent at the origin with a single stored neighbor at `(1, 0, 0)`,
distance 1. -/
def sepAgent : Agent :=
  { Agent.init 0 ⟨0, 0, 0⟩ ⟨0, 0, 0⟩ with neighbors := [(⟨1, ⟨1, 0, 0⟩⟩, 1)] }

theorem norm3_nonneg (v : Vec3) : 0 ≤ norm3 v := Real.sqrt_nonneg _

theorem norm3_zero : norm3 0 = 0 := by
  simp [norm3, Vec3.zero_def]

theorem norm3_eq_zero_iff (v : Vec3) : norm3 v = 0 ↔ v = 0 := by
  unfold norm3
  constructor
  · intro h
    have hsum : v.x ^ 2 + v.y ^ 2 + v.z ^ 2 = 0 := by
      have hnn : 0 ≤ v.x ^ 2 + v.y ^ 2 + v.z ^ 2 := by positivity
      have := Real.sqrt_eq_zero hnn |>.mp h
      exact this
    have hx : v.x = 0 := by nlinarith [sq_nonneg v.x, sq_nonneg v.y, sq_nonneg v.z]
    have hy : v.y = 0 := by nlinarith [sq_nonneg v.x, sq_nonneg v.y, sq_nonneg v.z]
    have hz : v.z = 0 := by nlinarith [sq_nonneg v.x, sq_nonneg v.y, sq_nonneg v.z]
    ext <;> simp [Vec3.zero_def, hx, hy, hz]
  · intro h
    subst h
    simp [Vec3.zero_def]

theorem norm3_scale (t : ℝ) (v : Vec3) : norm3 (scale t v) = |t| * norm3 v := by
  unfold norm3 scale
  have h1 : (t * v.x) ^ 2 + (t * v.y) ^ 2 + (t * v.z) ^ 2
      = t ^ 2 * (v.x ^ 2 + v.y ^ 2 + v.z ^ 2) := by ring
  rw [h1, Real.sqrt_mul (sq_nonneg t), Real.sqrt_sq_eq_abs]

theorem norm3_unitize (v : Vec3) (h : norm3 v ≠ 0) : norm3 (unitize v) = 1 := by
  have hpos : 0 < norm3 v := lt_of_le_of_ne (norm3_nonneg v) (Ne.symm h)
  unfold unitize
  rw [norm3_scale]
  rw [abs_of_pos (by positivity)]
  field_simp

/-- Cauchy–Schwarz for triples, via the Lagrange identity. -/
theorem dot3_le (u v : Vec3) :
    u.x * v.x + u.y * v.y + u.z * v.z ≤ norm3 u * norm3 v := by
  set A := u.x ^ 2 + u.y ^ 2 + u.z ^ 2 with hA
  set B := v.x ^ 2 + v.y ^ 2 + v.z ^ 2 with hB
  have hAnn : 0 ≤ A := by positivity
  have hBnn : 0 ≤ B := by positivity
  have cauchy : (u.x * v.x + u.y * v.y + u.z * v.z) ^ 2 ≤ A * B := by
    nlinarith [sq_nonneg (u.x * v.y - u.y * v.x), sq_nonneg (u.x * v.z - u.z * v.x),
      sq_nonneg (u.y * v.z - u.z * v.y)]
  calc u.x * v.x + u.y * v.y + u.z * v.z
      ≤ |u.x * v.x + u.y * v.y + u.z * v.z| := le_abs_self _
    _ = Real.sqrt ((u.x * v.x + u.y * v.y + u.z * v.z) ^ 2) :=
        (Real.sqrt_sq_eq_abs _).symm
    _ ≤ Real.sqrt (A * B) := Real.sqrt_le_sqrt cauchy
    _ = Real.sqrt A * Real.sqrt B := Real.sqrt_mul hAnn B
    _ = norm3 u * norm3 v := rfl

theorem norm3_add_le (u v : Vec3) : norm3 (u + v) ≤ norm3 u + norm3 v := by
  have hdot := dot3_le u v
  have hu : 0 ≤ norm3 u := norm3_nonneg u
  have hv : 0 ≤ norm3 v := norm3_nonneg v
  have husq : norm3 u ^ 2 = u.x ^ 2 + u.y ^ 2 + u.z ^ 2 :=
    Real.sq_sqrt (by positivity)
  have hvsq : norm3 v ^ 2 = v.x ^ 2 + v.y ^ 2 + v.z ^ 2 :=
    Real.sq_sqrt (by positivity)
  have key : (u.x + v.x) ^ 2 + (u.y + v.y) ^ 2 + (u.z + v.z) ^ 2
      ≤ (norm3 u + norm3 v) ^ 2 := by nlinarith
  calc norm3 (u + v)
      = Real.sqrt ((u.x + v.x) ^ 2 + (u.y + v.y) ^ 2 + (u.z + v.z) ^ 2) := rfl
    _ ≤ Real.sqrt ((norm3 u + norm3 v) ^ 2) := Real.sqrt_le_sqrt key
    _ = norm3 u + norm3 v := Real.sqrt_sq (by positivity)

theorem dist3_nonneg (p q : Vec3) : 0 ≤ dist3 p q := norm3_nonneg _

theorem dist3_eq_zero_iff (p q : Vec3) : dist3 p q = 0 ↔ p = q := by
  unfold dist3
  rw [norm3_eq_zero_iff]
  constructor
  · intro h
    have hx := congrArg Vec3.x h
    have hy := congrArg Vec3.y h
    have hz := congrArg Vec3.z h
    simp [Vec3.sub_def, Vec3.zero_def, sub_eq_zero] at hx hy hz
    ext <;> assumption
  · intro h
    subst h
    ext <;> simp [Vec3.sub_def, Vec3.zero_def]

/-- `sense` writes only the cached sensed fields: identity, position,
velocity, age, liveness and trail are untouched. -/
theorem sense_frame (a : Agent) (agents : List Agent) (o : Oracle)
    (r : Option ℝ) :
    (a.sense agents o r).id = a.id ∧
    (a.sense agents o r).position = a.position ∧
    (a.sense agents o r).velocity = a.velocity ∧
    (a.sense agents o r).age = a.age ∧
    (a.sense agents o r).is_alive = a.is_alive ∧
    (a.sense agents o r).path = a.path := by
  unfold Agent.sense
  cases get_uv o a.position <;> cases r <;> simp

/-- `decide` writes only the velocity (and advances the stream): every other
field is untouched. -/
theorem decide_frame (a : Agent) (ms msl aw sw j : ℝ) (rng : Rng) :
    (a.decide ms msl aw sw j rng).1.id = a.id ∧
    (a.decide ms msl aw sw j rng).1.position = a.position ∧
    (a.decide ms msl aw sw j rng).1.age = a.age ∧
    (a.decide ms msl aw sw j rng).1.is_alive = a.is_alive ∧
    (a.decide ms msl aw sw j rng).1.path = a.path ∧
    (a.decide ms msl aw sw j rng).1.uv = a.uv ∧
    (a.decide ms msl aw sw j rng).1.curvature_mean = a.curvature_mean ∧
    (a.decide ms msl aw sw j rng).1.curvature_dir = a.curvature_dir ∧
    (a.decide ms msl aw sw j rng).1.slope_vector = a.slope_vector ∧
    (a.decide ms msl aw sw j rng).1.slope_magnitude = a.slope_magnitude ∧
    (a.decide ms msl aw sw j rng).1.neighbors = a.neighbors := by
  unfold Agent.decide
  simp only [Rng.next]
  split
  · simp
  · split <;> simp

/-- `move` writes only the position and the trail. -/
theorem move_frame (a : Agent) (o : Oracle) :
    (a.move o).id = a.id ∧
    (a.move o).velocity = a.velocity ∧
    (a.move o).age = a.age ∧
    (a.move o).is_alive = a.is_alive ∧
    (a.move o).uv = a.uv ∧
    (a.move o).curvature_mean = a.curvature_mean ∧
    (a.move o).curvature_dir = a.curvature_dir ∧
    (a.move o).slope_vector = a.slope_vector ∧
    (a.move o).slope_magnitude = a.slope_magnitude ∧
    (a.move o).neighbors = a.neighbors := by
  unfold Agent.move
  split <;> simp

/-- For a living agent, `move` appends exactly the new position to the
trail. -/
theorem move_path (a : Agent) (o : Oracle) (h : a.is_alive = true) :
    (a.move o).path = a.path ++ [(a.move o).position] := by
  unfold Agent.move
  simp [h]

/-- `move` leaves a dead agent untouched. -/
theorem move_dead (a : Agent) (o : Oracle) (h : a.is_alive = false) :
    a.move o = a := by
  unfold Agent.move
  simp [h]

/-- The agent returned by `lifecycle`: age incremented by one, liveness set by
the death rule, every other field untouched. -/
theorem lifecycle_frame (a : Agent) (o : Oracle) (p : Params) (rng : Rng)
    (nid : ℕ) :
    (a.lifecycle o p rng nid).1.id = a.id ∧
    (a.lifecycle o p rng nid).1.position = a.position ∧
    (a.lifecycle o p rng nid).1.velocity = a.velocity ∧
    (a.lifecycle o p rng nid).1.age = a.age + 1 ∧
    (a.lifecycle o p rng nid).1.path = a.path ∧
    (a.lifecycle o p rng nid).1.slope_magnitude = a.slope_magnitude ∧
    (a.lifecycle o p rng nid).1.curvature_mean = a.curvature_mean ∧
    (a.lifecycle o p rng nid).1.neighbors = a.neighbors := by
  unfold Agent.lifecycle
  simp only [Rng.next]
  split_ifs <;> simp

/-- The liveness outcome of `lifecycle`: the death rule alone decides it. -/
theorem lifecycle_alive (a : Agent) (o : Oracle) (p : Params) (rng : Rng)
    (nid : ℕ) :
    (a.lifecycle o p rng nid).1.is_alive =
      if a.age + 1 > p.maxAge ∨ a.slope_magnitude > p.slopeKill then false
      else a.is_alive := by
  unfold Agent.lifecycle
  simp only [Rng.next]
  split_ifs with h <;> simp [h]

/-- For a living agent, `update` is exactly the sense → decide → move →
lifecycle pipeline. -/
theorem update_alive (a : Agent) (agents : List Agent) (o : Oracle)
    (p : Params) (rng : Rng) (nid : ℕ) (h : a.is_alive = true) :
    a.update agents o p rng nid =
      (((a.sense agents o p.visionRadius).decide p.maxSpeed p.maxSlope
          p.alignmentWeight p.separationWeight p.jitter rng).1.move o).lifecycle
        o p
        ((a.sense agents o p.visionRadius).decide p.maxSpeed p.maxSlope
          p.alignmentWeight p.separationWeight p.jitter rng).2 nid := by
  unfold Agent.update
  simp [h]

/-- `update` leaves a dead agent untouched and spawns nothing. -/
theorem update_dead (a : Agent) (agents : List Agent) (o : Oracle)
    (p : Params) (rng : Rng) (nid : ℕ) (h : a.is_alive = false) :
    a.update agents o p rng nid = (a, none, rng, nid) := by
  unfold Agent.update
  simp [h]

/-- The agent reached just before the lifecycle stage keeps the pre-step age
and liveness of a living agent. -/
theorem premortem_fields (a : Agent) (agents : List Agent) (o : Oracle)
    (p : Params) (rng : Rng) (h : a.is_alive = true) :
    (((a.sense agents o p.visionRadius).decide p.maxSpeed p.maxSlope
        p.alignmentWeight p.separationWeight p.jitter rng).1.move o).age = a.age ∧
    (((a.sense agents o p.visionRadius).decide p.maxSpeed p.maxSlope
        p.alignmentWeight p.separationWeight p.jitter rng).1.move o).is_alive
      = true := by
  obtain ⟨-, -, -, hs_age, hs_alive, -⟩ := sense_frame a agents o p.visionRadius
  obtain ⟨-, -, hd_age, hd_alive, -⟩ :=
    decide_frame (a.sense agents o p.visionRadius) p.maxSpeed p.maxSlope
      p.alignmentWeight p.separationWeight p.jitter rng
  obtain ⟨-, -, hm_age, hm_alive, -⟩ :=
    move_frame ((a.sense agents o p.visionRadius).decide p.maxSpeed p.maxSlope
      p.alignmentWeight p.separationWeight p.jitter rng).1 o
  exact ⟨by rw [hm_age, hd_age, hs_age], by rw [hm_alive, hd_alive, hs_alive, h]⟩

/-- C6: a living agent's transition to `Dead` during `update` happens exactly
when, after motion and the age increment, `age > maxAge` or the sensed
`slopeMagnitude > slopeKill`; the age really is incremented by one, and a
sensed slope magnitude above `slopeKill` kills regardless of age — in
particular on the very first step. -/
theorem death_transition_iff (a : Agent) (agents : List Agent) (o : Oracle)
    (p : Params) (rng : Rng) (nid : ℕ) (h : a.is_alive = true) :
    ((a.update agents o p rng nid).1.is_alive = false ↔
      ((a.update agents o p rng nid).1.age > p.maxAge ∨
        (a.update agents o p rng nid).1.slope_magnitude > p.slopeKill)) ∧
    (a.update agents o p rng nid).1.age = a.age + 1 ∧
    ((a.update agents o p rng nid).1.slope_magnitude > p.slopeKill →
      (a.update agents o p rng nid).1.is_alive = false) := by
  rw [update_alive a agents o p rng nid h]
  set a3 := ((a.sense agents o p.visionRadius).decide p.maxSpeed p.maxSlope
    p.alignmentWeight p.separationWeight p.jitter rng).1.move o with ha3
  set rng1 := ((a.sense agents o p.visionRadius).decide p.maxSpeed p.maxSlope
    p.alignmentWeight p.separationWeight p.jitter rng).2 with hrng1
  obtain ⟨hage0, halive0⟩ := premortem_fields a agents o p rng h
  rw [← ha3] at hage0 halive0
  obtain ⟨-, -, -, hage, -, hslope, -, -⟩ := lifecycle_frame a3 o p rng1 nid
  have halive := lifecycle_alive a3 o p rng1 nid
  refine ⟨?_, ?_, ?_⟩
  · rw [halive, hage, hslope, hage0]
    split_ifs with hc
    · simp [hc]
    · simp [halive0, hc]
  · rw [hage, hage0]
  · intro hs
    rw [halive]
    rw [hslope] at hs
    simp [hs]

/-- C6 witness: a concrete living agent run through `update`. -/
theorem death_transition_iff_witness :
    zeroAgent.is_alive = true ∧
    (((zeroAgent.update [zeroAgent] freeOracle defaultParams halfRng 0).1.is_alive
        = false ↔
      ((zeroAgent.update [zeroAgent] freeOracle defaultParams halfRng 0).1.age
          > defaultParams.maxAge ∨
        (zeroAgent.update [zeroAgent] freeOracle defaultParams halfRng 0).1.slope_magnitude
          > defaultParams.slopeKill)) ∧
    (zeroAgent.update [zeroAgent] freeOracle defaultParams halfRng 0).1.age
        = zeroAgent.age + 1 ∧
    ((zeroAgent.update [zeroAgent] freeOracle defaultParams halfRng 0).1.slope_magnitude
        > defaultParams.slopeKill →
      (zeroAgent.update [zeroAgent] freeOracle defaultParams halfRng 0).1.is_alive
        = false)) :=
  ⟨rfl, death_transition_iff zeroAgent [zeroAgent] freeOracle defaultParams
    halfRng 0 rfl⟩

/-- C8: a freshly constructed agent starts with the singleton trail holding
its position, and one `update` of a living agent appends exactly the new
position to the trail — so the trail stays non-empty, its last element is
always the current position, and its length grows by exactly one per
completed step. -/
theorem path_invariant (i : ℕ) (pos vel : Vec3) (a : Agent)
    (agents : List Agent) (o : Oracle) (p : Params) (rng : Rng) (nid : ℕ)
    (h : a.is_alive = true) :
    (Agent.init i pos vel).path = [(Agent.init i pos vel).position] ∧
    (a.update agents o p rng nid).1.path =
      a.path ++ [(a.update agents o p rng nid).1.position] ∧
    (a.update agents o p rng nid).1.path.length = a.path.length + 1 ∧
    (a.update agents o p rng nid).1.path.getLast? =
      some (a.update agents o p rng nid).1.position := by
  rw [update_alive a agents o p rng nid h]
  set a2 := ((a.sense agents o p.visionRadius).decide p.maxSpeed p.maxSlope
    p.alignmentWeight p.separationWeight p.jitter rng).1 with ha2
  set rng1 := ((a.sense agents o p.visionRadius).decide p.maxSpeed p.maxSlope
    p.alignmentWeight p.separationWeight p.jitter rng).2 with hrng1
  have ha2path : a2.path = a.path := by
    rw [ha2,
      (decide_frame (a.sense agents o p.visionRadius) p.maxSpeed p.maxSlope
        p.alignmentWeight p.separationWeight p.jitter rng).2.2.2.2.1,
      (sense_frame a agents o p.visionRadius).2.2.2.2.2]
  have ha2alive : a2.is_alive = true := by
    rw [ha2,
      (decide_frame (a.sense agents o p.visionRadius) p.maxSpeed p.maxSlope
        p.alignmentWeight p.separationWeight p.jitter rng).2.2.2.1,
      (sense_frame a agents o p.visionRadius).2.2.2.2.1, h]
  obtain ⟨-, -, -, -, hl_path, -⟩ := lifecycle_frame (a2.move o) o p rng1 nid
  obtain ⟨-, hl_pos, -⟩ := lifecycle_frame (a2.move o) o p rng1 nid
  have hm_path := move_path a2 o ha2alive
  have hkey : (((a2.move o).lifecycle o p rng1 nid).1).path =
      a.path ++ [(((a2.move o).lifecycle o p rng1 nid).1).position] := by
    rw [hl_path, hl_pos, hm_path, ha2path]
  refine ⟨rfl, hkey, ?_, ?_⟩
  · rw [hkey]
    simp
  · rw [hkey]
    exact List.getLast?_concat _

/-- C8 witness: the trail behavior at a concrete living agent. -/
theorem path_invariant_witness :
    zeroAgent.is_alive = true ∧
    ((Agent.init 7 ⟨1, 2, 3⟩ 0).path = [(Agent.init 7 ⟨1, 2, 3⟩ 0).position] ∧
    (zeroAgent.update [zeroAgent] freeOracle defaultParams halfRng 0).1.path =
      zeroAgent.path ++
        [(zeroAgent.update [zeroAgent] freeOracle defaultParams halfRng 0).1.position] ∧
    (zeroAgent.update [zeroAgent] freeOracle defaultParams halfRng 0).1.path.length
        = zeroAgent.path.length + 1 ∧
    (zeroAgent.update [zeroAgent] freeOracle defaultParams halfRng 0).1.path.getLast?
        = some (zeroAgent.update [zeroAgent] freeOracle defaultParams halfRng 0).1.position) :=
  ⟨rfl, path_invariant 7 ⟨1, 2, 3⟩ 0 zeroAgent [zeroAgent] freeOracle
    defaultParams halfRng 0 rfl⟩

/-- C10 counterexample: the claim says that on a failed closest-point
projection *all* cached geometric fields — `surfaceCoord` among them — keep
their previous values; but `Agent.sense` assigns the raw projection result to
`self.uv` before the guard, so a previously cached `surfaceCoord` is
overwritten by `None`. -/
theorem sense_failure_uv_overwritten :
    (cachedAgent.sense [] freeOracle (some 1)).uv = none ∧
    cachedAgent.uv = some (1, 2) := by
  constructor
  · unfold Agent.sense get_uv freeOracle
    simp
  · rfl

/-- C10 (amended): on a failed closest-point projection, `sense` silently
keeps the previous values of `curvatureMean`, `curvatureDirection`,
`slopeVector` and `slopeMagnitude`, while `surfaceCoord` is cleared to
absent; the step completes normally. -/
theorem sense_failure_frame (a : Agent) (agents : List Agent) (o : Oracle)
    (r : Option ℝ) (h : o.closestParam a.position = none) :
    (a.sense agents o r).uv = none ∧
    (a.sense agents o r).curvature_mean = a.curvature_mean ∧
    (a.sense agents o r).curvature_dir = a.curvature_dir ∧
    (a.sense agents o r).slope_vector = a.slope_vector ∧
    (a.sense agents o r).slope_magnitude = a.slope_magnitude := by
  unfold Agent.sense get_uv
  rw [h]
  cases r <;> simp

/-- C10 witness: a concrete failing projection. -/
theorem sense_failure_frame_witness :
    freeOracle.closestParam cachedAgent.position = none ∧
    ((cachedAgent.sense [] freeOracle (some 1)).uv = none ∧
    (cachedAgent.sense [] freeOracle (some 1)).curvature_mean
        = cachedAgent.curvature_mean ∧
    (cachedAgent.sense [] freeOracle (some 1)).curvature_dir
        = cachedAgent.curvature_dir ∧
    (cachedAgent.sense [] freeOracle (some 1)).slope_vector
        = cachedAgent.slope_vector ∧
    (cachedAgent.sense [] freeOracle (some 1)).slope_magnitude
        = cachedAgent.slope_magnitude) :=
  ⟨rfl, sense_failure_frame cachedAgent [] freeOracle (some 1) rfl⟩

/-- With an unset vision radius, `sense` leaves the neighbor list empty. -/
theorem sense_neighbors_none (a : Agent) (agents : List Agent) (o : Oracle) :
    (a.sense agents o none).neighbors = [] := by
  unfold Agent.sense
  cases get_uv o a.position <;> simp

/-- With a present vision radius, the rebuilt neighbor list is the pairwise
scan over the supplied agent list. -/
theorem sense_neighbors_some (a : Agent) (agents : List Agent) (o : Oracle)
    (r : ℝ) :
    (a.sense agents o (some r)).neighbors =
      agents.filterMap (fun other =>
        if other.id = a.id then none
        else if dist3 a.position other.position ≤ r then
          some (⟨other.id, other.position⟩, dist3 a.position other.position)
        else none) := by
  unfold Agent.sense
  cases get_uv o a.position <;> simp

/-- The neighbor scan of `zeroAgent` against a coincident second agent at
vision radius 0 returns that agent: its distance 0 passes `d <= 0`. -/
theorem coinc_sense_eval :
    (zeroAgent.sense [zeroAgent, coincAgent] freeOracle (some 0)).neighbors =
      [(⟨1, ⟨0, 0, 0⟩⟩, 0)] := by
  rw [sense_neighbors_some]
  unfold zeroAgent coincAgent Agent.init
  simp only [List.filterMap_cons, List.filterMap_nil]
  norm_num [dist3, norm3, Vec3.sub_def]

/-- C9 counterexample: with `visionRadius = 0` the neighbor list is *not*
always empty — an agent occupying exactly the same position (distance 0)
still satisfies `d <= vision_radius` and is collected. -/
theorem zero_vision_coincident_neighbor :
    (zeroAgent.sense [zeroAgent, coincAgent] freeOracle (some 0)).neighbors =
      [(⟨1, ⟨0, 0, 0⟩⟩, 0)] ∧
    (zeroAgent.sense [zeroAgent, coincAgent] freeOracle (some 0)).neighbors ≠
      [] := by
  refine ⟨coinc_sense_eval, ?_⟩
  rw [coinc_sense_eval]
  simp

/-- C9 (amended): an unset vision radius yields an empty neighbor list, and
with `visionRadius = 0` every collected neighbor is at distance exactly 0,
i.e. occupies the agent's own position; agents at any positive distance are
excluded. -/
theorem zero_vision_neighbors (a : Agent) (agents : List Agent) (o : Oracle) :
    (a.sense agents o none).neighbors = [] ∧
    (∀ pr, pr ∈ (a.sense agents o (some 0)).neighbors →
      pr.2 = 0 ∧ pr.1.position = a.position) := by
  refine ⟨sense_neighbors_none a agents o, ?_⟩
  intro pr hpr
  rw [sense_neighbors_some, List.mem_filterMap] at hpr
  obtain ⟨other, -, hf⟩ := hpr
  by_cases hid : other.id = a.id
  · simp [hid] at hf
  · rw [if_neg hid] at hf
    by_cases hd : dist3 a.position other.position ≤ 0
    · rw [if_pos hd] at hf
      have hd0 : dist3 a.position other.position = 0 :=
        le_antisymm hd (dist3_nonneg _ _)
      have hpos : a.position = other.position := (dist3_eq_zero_iff _ _).mp hd0
      have hpr := Option.some.inj hf
      subst hpr
      exact ⟨hd0, hpos.symm⟩
    · simp [hd] at hf

/-- C9 witness: the coincident neighbor collected at vision radius 0 indeed
sits at distance 0 on the agent's own position. -/
theorem zero_vision_neighbors_witness :
    ((⟨⟨1, ⟨0, 0, 0⟩⟩, 0⟩ : Contact × ℝ)
        ∈ (zeroAgent.sense [zeroAgent, coincAgent] freeOracle (some 0)).neighbors) ∧
    ((⟨⟨1, ⟨0, 0, 0⟩⟩, 0⟩ : Contact × ℝ).2 = 0 ∧
      (⟨⟨1, ⟨0, 0, 0⟩⟩, 0⟩ : Contact × ℝ).1.position = zeroAgent.position) := by
  have hmem : (⟨⟨1, ⟨0, 0, 0⟩⟩, 0⟩ : Contact × ℝ)
      ∈ (zeroAgent.sense [zeroAgent, coincAgent] freeOracle (some 0)).neighbors := by
    rw [coinc_sense_eval]
    simp
  exact ⟨hmem,
    (zero_vision_neighbors zeroAgent [zeroAgent, coincAgent] freeOracle).2 _ hmem⟩

/-- C3: the whole run is a function of seed, configuration and step count
alone — the seeded stream is the only source of randomness and is consumed in
a fixed order — so two runs with identical seed, parameters and step count
produce identical final positions, velocities and population size. -/
theorem run_deterministic (seed n steps : ℕ) (o : Oracle) (p : Params)
    (r1 r2 : List Agent) (h1 : r1 = simulate seed n steps o p)
    (h2 : r2 = simulate seed n steps o p) :
    r1.map (fun ag => ag.position) = r2.map (fun ag => ag.position) ∧
    r1.map (fun ag => ag.velocity) = r2.map (fun ag => ag.velocity) ∧
    r1.length = r2.length := by
  subst h1
  subst h2
  exact ⟨rfl, rfl, rfl⟩

/-- C3 witness: two concrete repeated runs. -/
theorem run_deterministic_witness :
    simulate 42 2 1 freeOracle defaultParams
        = simulate 42 2 1 freeOracle defaultParams ∧
    ((simulate 42 2 1 freeOracle defaultParams).map (fun ag => ag.position)
        = (simulate 42 2 1 freeOracle defaultParams).map (fun ag => ag.position) ∧
      (simulate 42 2 1 freeOracle defaultParams).map (fun ag => ag.velocity)
        = (simulate 42 2 1 freeOracle defaultParams).map (fun ag => ag.velocity) ∧
      (simulate 42 2 1 freeOracle defaultParams).length
        = (simulate 42 2 1 freeOracle defaultParams).length) :=
  ⟨rfl, run_deterministic 42 2 1 freeOracle defaultParams _ _ rfl rfl⟩

/-- Unfolding the guarded fold of the neighbor-interaction accumulator into a
sum over the contributing neighbors. -/
theorem away_foldl (p0 : Vec3) (l : List (Contact × ℝ)) :
    ∀ acc : Vec3,
      l.foldl (fun acc pr =>
        if norm3 (p0 - pr.1.position) > 1e-9 then
          acc + scale (1.0 / max pr.2 1e-6) (unitize (p0 - pr.1.position))
        else acc) acc
      = acc + ((l.filter fun pr => norm3 (p0 - pr.1.position) > 1e-9).map
          (fun pr => scale (1.0 / max pr.2 1e-6) (unitize (p0 - pr.1.position)))).sum := by
  induction l with
  | nil => intro acc; simp
  | cons hd tl ih =>
      intro acc
      by_cases hc : norm3 (p0 - hd.1.position) > 1e-9
      · rw [List.foldl_cons, if_pos hc, ih]
        rw [List.filter_cons_of_pos (by simp [hc])]
        rw [List.map_cons, List.sum_cons, add_assoc]
      · rw [List.foldl_cons, if_neg hc, ih]
        rw [List.filter_cons_of_neg (by simp [hc])]

/-- The neighbor accumulator of `sepAgent`: its single neighbor at `(1,0,0)`
contributes the unit vector pointing from the neighbor towards the agent. -/
theorem away_sep_eval : awayVector sepAgent = ⟨-1, 0, 0⟩ := by
  have hmax : max (1 : ℝ) 1e-6 = 1 := by
    rw [max_eq_left]
    norm_num
  have hnorm : norm3 (⟨-1, 0, 0⟩ : Vec3) = 1 := by
    unfold norm3
    norm_num
  unfold awayVector sepAgent Agent.init
  simp only [List.foldl_cons, List.foldl_nil]
  have hsub : (⟨0, 0, 0⟩ : Vec3) - ⟨1, 0, 0⟩ = ⟨-1, 0, 0⟩ := by
    ext <;> simp [Vec3.sub_def] <;> norm_num
  rw [hsub, hnorm]
  rw [if_pos (by norm_num)]
  rw [hmax]
  unfold unitize scale
  rw [hnorm]
  ext <;> simp [Vec3.add_def, Vec3.zero_def] <;> norm_num

/-- C2 counterexample: the claim's accumulator sums
`normalize(other.position − position)`, but the source computes
`rs.VectorCreate(self.position, other.position) = position − other.position`:
at a single neighbor one unit to the +x side, the code's accumulated vector
is `(-1,0,0)` (pointing away from the neighbor) while the claimed formula
gives `(1,0,0)`. -/
theorem away_sign_counterexample :
    awayVector sepAgent = ⟨-1, 0, 0⟩ ∧ specAway sepAgent = ⟨1, 0, 0⟩ ∧
    awayVector sepAgent ≠ specAway sepAgent := by
  have hspec : specAway sepAgent = ⟨1, 0, 0⟩ := by
    have hmax : max (1 : ℝ) 1e-6 = 1 := by
      rw [max_eq_left]
      norm_num
    have hsub : (⟨1, 0, 0⟩ : Vec3) - ⟨0, 0, 0⟩ = ⟨1, 0, 0⟩ := by
      ext <;> simp [Vec3.sub_def]
    have hnorm : norm3 (⟨1, 0, 0⟩ : Vec3) = 1 := by
      unfold norm3
      norm_num
    unfold specAway sepAgent Agent.init
    simp only [List.map_cons, List.map_nil, List.sum_cons, List.sum_nil]
    rw [hsub, hmax]
    unfold unitize scale
    rw [hnorm]
    ext <;> simp [Vec3.add_def, Vec3.zero_def] <;> norm_num
  refine ⟨away_sep_eval, hspec, ?_⟩
  rw [away_sep_eval, hspec]
  intro h
  have := congrArg Vec3.x h
  norm_num at this

/-- C2 (amended): the accumulated neighbor-interaction vector equals the sum
over neighbors (at positive separation) of
`normalize(position − other.position) * (1 / max(distance, 1e-6))` — the
*reverse* of the claimed direction, pointing away from neighbors — and when
its length exceeds `1e-9` the velocity is incremented by
`normalize(away) * separationWeight`. -/
theorem separation_term (a : Agent) (sw : ℝ) (v : Vec3)
    (hne : a.neighbors.isEmpty = false)
    (hlen : norm3 (awayVector a) > 1e-9) :
    awayVector a =
      ((a.neighbors.filter fun pr =>
          norm3 (a.position - pr.1.position) > 1e-9).map
        (fun pr => scale (1.0 / max pr.2 1e-6)
          (unitize (a.position - pr.1.position)))).sum ∧
    sepStage a sw v = v + scale sw (unitize (awayVector a)) := by
  constructor
  · unfold awayVector
    rw [away_foldl]
    exact zero_add _
  · unfold sepStage
    rw [hne]
    simp only [Bool.false_eq_true, if_false]
    rw [if_pos hlen]

/-- C2 witness: the amended separation term at the concrete one-neighbor
agent. -/
theorem separation_term_witness :
    sepAgent.neighbors.isEmpty = false ∧
    norm3 (awayVector sepAgent) > 1e-9 ∧
    (awayVector sepAgent =
      ((sepAgent.neighbors.filter fun pr =>
          norm3 (sepAgent.position - pr.1.position) > 1e-9).map
        (fun pr => scale (1.0 / max pr.2 1e-6)
          (unitize (sepAgent.position - pr.1.position)))).sum ∧
    sepStage sepAgent 0.12 0 = 0 + scale 0.12 (unitize (awayVector sepAgent))) := by
  have hlen : norm3 (awayVector sepAgent) > 1e-9 := by
    rw [away_sep_eval]
    have : norm3 (⟨-1, 0, 0⟩ : Vec3) = 1 := by
      unfold norm3
      norm_num
    rw [this]
    norm_num
  exact ⟨rfl, hlen, separation_term sepAgent 0.12 0 rfl hlen⟩

/-- C7: a surviving agent draws exactly one uniform sample and spawns exactly
one child iff the sample is below `spawnChance`, tripled when
`|curvatureMean| > curvatureSpawnThreshold` and forced to 0 when the neighbor
count exceeds `maxNeighbors`; the child carries the fresh identifier, age 0,
`alive = true` and the singleton trail of its own position. -/
theorem spawn_rule (a : Agent) (o : Oracle) (p : Params) (rng : Rng) (nid : ℕ)
    (hsurv : ¬(a.age + 1 > p.maxAge ∨ a.slope_magnitude > p.slopeKill)) :
    ((a.lifecycle o p rng nid).2.1.isSome = true ↔
      rng.stream rng.idx <
        (if a.neighbors.length > p.maxNeighbors then (0.0 : ℝ)
         else if |a.curvature_mean| > p.curvatureSpawn then p.spawnChance * 3.0
         else p.spawnChance)) ∧
    (∀ c, (a.lifecycle o p rng nid).2.1 = some c →
      c.id = nid ∧ c.age = 0 ∧ c.is_alive = true ∧ c.path = [c.position] ∧
      (a.lifecycle o p rng nid).2.2.2 = nid + 1) := by
  unfold Agent.lifecycle
  simp only [Rng.next]
  rw [if_neg hsurv]
  by_cases hdraw : rng.stream rng.idx <
      (if a.neighbors.length > p.maxNeighbors then (0.0 : ℝ)
       else if |a.curvature_mean| > p.curvatureSpawn then p.spawnChance * 3.0
       else p.spawnChance)
  · rw [if_pos hdraw]
    constructor
    · simpa using hdraw
    · intro c hc
      simp only [Option.some.injEq] at hc
      subst hc
      unfold spawn_agent_near
      simp only [Rng.next]
      exact ⟨rfl, rfl, rfl, rfl, trivial⟩
  · rw [if_neg hdraw]
    constructor
    · simpa using hdraw
    · intro c hc
      simp at hc

/-- C7 witness: a concrete surviving agent with the default lifecycle
parameters and a unit draw of 1/2 (no spawn, since 1/2 is not below 0.02). -/
theorem spawn_rule_witness :
    ¬(zeroAgent.age + 1 > defaultParams.maxAge ∨
        zeroAgent.slope_magnitude > defaultParams.slopeKill) ∧
    (((zeroAgent.lifecycle freeOracle defaultParams halfRng 5).2.1.isSome = true ↔
      halfRng.stream halfRng.idx <
        (if zeroAgent.neighbors.length > defaultParams.maxNeighbors then (0.0 : ℝ)
         else if |zeroAgent.curvature_mean| > defaultParams.curvatureSpawn then
           defaultParams.spawnChance * 3.0
         else defaultParams.spawnChance)) ∧
    (∀ c, (zeroAgent.lifecycle freeOracle defaultParams halfRng 5).2.1 = some c →
      c.id = 5 ∧ c.age = 0 ∧ c.is_alive = true ∧ c.path = [c.position] ∧
      (zeroAgent.lifecycle freeOracle defaultParams halfRng 5).2.2.2 = 5 + 1)) := by
  have hsurv : ¬(zeroAgent.age + 1 > defaultParams.maxAge ∨
      zeroAgent.slope_magnitude > defaultParams.slopeKill) := by
    unfold zeroAgent Agent.init defaultParams
    norm_num
  exact ⟨hsurv, spawn_rule zeroAgent freeOracle defaultParams halfRng 5 hsurv⟩

/-- Any child emitted by the lifecycle stage is constructed alive. -/
theorem lifecycle_child_alive (a : Agent) (o : Oracle) (p : Params)
    (rng : Rng) (nid : ℕ) (c : Agent)
    (hc : (a.lifecycle o p rng nid).2.1 = some c) : c.is_alive = true := by
  unfold Agent.lifecycle at hc
  simp only [Rng.next] at hc
  split_ifs at hc <;> simp at hc <;> (subst hc; rfl)

/-- Any child emitted by `update` is constructed alive. -/
theorem update_child_alive (a : Agent) (agents : List Agent) (o : Oracle)
    (p : Params) (rng : Rng) (nid : ℕ) (c : Agent)
    (hc : (a.update agents o p rng nid).2.1 = some c) : c.is_alive = true := by
  by_cases h : a.is_alive = true
  · rw [update_alive a agents o p rng nid h] at hc
    exact lifecycle_child_alive _ o p _ nid c hc
  · rw [update_dead a agents o p rng nid (by simpa using h)] at hc
    simp at hc

/-- A living agent that the lifecycle stage kills emits no child. -/
theorem lifecycle_no_spawn_dead (a : Agent) (o : Oracle) (p : Params)
    (rng : Rng) (nid : ℕ) (h : a.is_alive = true) :
    (!(a.lifecycle o p rng nid).1.is_alive &&
      (a.lifecycle o p rng nid).2.1.isSome) = false := by
  unfold Agent.lifecycle
  simp only [Rng.next]
  split_ifs <;> simp [h]

/-- Appending the updated agent to `active_agents` only when it is alive
preserves the all-alive property. -/
theorem act_append_alive (l : List Agent) (X : Agent)
    (h : (l.all fun ag => ag.is_alive) = true) :
    ((if X.is_alive then l ++ [X] else l).all fun ag => ag.is_alive) = true := by
  split_ifs with hX
  · rw [List.all_append]
    simp [h, hX]
  · exact h

/-- Appending an (always-alive) spawned child to `new_agents` preserves the
all-alive property. -/
theorem news_append_alive (l : List Agent) (ch : Option Agent)
    (h : (l.all fun ag => ag.is_alive) = true)
    (hc : ∀ c, ch = some c → c.is_alive = true) :
    (((match ch with
        | some c => l ++ [c]
        | none => l).all fun ag => ag.is_alive)) = true := by
  cases ch with
  | none => exact h
  | some c =>
      rw [List.all_append]
      simp [h, hc c rfl]

/-- The in-place loop preserves the all-alive property of the
`active_agents` and `new_agents` accumulators. -/
theorem stepLoop_alive (o : Oracle) (p : Params) :
    ∀ (idxs : List ℕ) (s : StepState),
      (s.act.all fun ag => ag.is_alive) = true →
      (s.news.all fun ag => ag.is_alive) = true →
      (((stepLoop o p idxs s).act.all fun ag => ag.is_alive) = true ∧
        ((stepLoop o p idxs s).news.all fun ag => ag.is_alive) = true) := by
  intro idxs
  induction idxs with
  | nil =>
      intro s h1 h2
      exact ⟨h1, h2⟩
  | cons i rest ih =>
      intro s h1 h2
      simp only [stepLoop]
      apply ih
      · exact act_append_alive _ _ h1
      · exact news_append_alive _ _ h2
          (fun c hc => update_child_alive _ _ o p _ _ c hc)

/-- C5 (amended): under the builder's population step (`RunScript`), every
member of the resulting population is alive — an agent whose flag became
false during the step is excluded, hence invisible to all later sensing,
which only scans the population — and an agent that is dead after its own
update never has a spawned child.  (The standalone simulator's step loop does
*not* enjoy the exclusion property; see the counterexample.) -/
theorem run_step_excludes_dead (o : Oracle) (p : Params) (pop : List Agent)
    (rng : Rng) (nid : ℕ) (a : Agent) (cur : List Agent) (rng2 : Rng)
    (nid2 : ℕ) :
    ((runStep o p pop rng nid).1.all fun ag => ag.is_alive) = true ∧
    (!(a.update cur o p rng2 nid2).1.is_alive &&
      (a.update cur o p rng2 nid2).2.1.isSome) = false := by
  constructor
  · unfold runStep
    obtain ⟨h1, h2⟩ := stepLoop_alive o p (List.range pop.length)
      ⟨pop, [], [], rng, nid⟩ rfl rfl
    rw [List.all_append]
    simp [h1, h2]
  · by_cases h : a.is_alive = true
    · rw [update_alive a cur o p rng2 nid2 h]
      exact lifecycle_no_spawn_dead _ o p _ nid2
        (premortem_fields a cur o p rng2 h).2
    · rw [update_dead a cur o p rng2 nid2 (by simpa using h)]
      simp

/-- For a living agent, the post-decision velocity is the clamped value, plus
the anti-stall perturbation exactly when the clamped speed is below `1e-4`. -/
theorem decide_velocity (a : Agent) (ms msl aw sw j : ℝ) (rng : Rng)
    (h : a.is_alive = true) :
    (a.decide ms msl aw sw j rng).1.velocity =
      (if norm3 (clampStage ms (sepStage a sw (alignStage a aw
            (scale (resistanceOf a.slope_magnitude msl) a.velocity)))) < 1e-4
       then
        clampStage ms (sepStage a sw (alignStage a aw
          (scale (resistanceOf a.slope_magnitude msl) a.velocity))) +
          ⟨uniform (-j) j (rng.stream rng.idx),
            uniform (-j) j (rng.stream (rng.idx + 1)), 0⟩
       else
        clampStage ms (sepStage a sw (alignStage a aw
          (scale (resistanceOf a.slope_magnitude msl) a.velocity)))) := by
  unfold Agent.decide
  simp only [Rng.next, h, Bool.not_true, Bool.false_eq_true, if_false]
  split_ifs <;> simp

/-- The speed clamp really bounds the speed by a nonnegative `maxSpeed`. -/
theorem clampStage_le (ms : ℝ) (v : Vec3) (h : 0 ≤ ms) :
    norm3 (clampStage ms v) ≤ ms := by
  unfold clampStage
  split_ifs with hc
  · have hne : norm3 v ≠ 0 := by
      intro h0
      rw [h0] at hc
      exact absurd (lt_of_le_of_lt h hc) (lt_irrefl 0)
    rw [norm3_scale, norm3_unitize v hne, abs_of_nonneg h]
    simp
  · push_neg at hc
    exact hc

/-- A `uniform(-j, j)` draw from a unit sample has square at most `j²`. -/
theorem uniform_sq_le (j u : ℝ) (hj : 0 ≤ j) (h0 : 0 ≤ u) (h1 : u ≤ 1) :
    (uniform (-j) j u) ^ 2 ≤ j ^ 2 := by
  unfold uniform
  nlinarith [mul_nonneg (sq_nonneg j) (mul_nonneg h0 (sub_nonneg.mpr h1))]

/-- The planar anti-stall perturbation has length at most `√2 · jitter`. -/
theorem jitter_norm_le (d1 d2 j : ℝ) (hj : 0 ≤ j) (h1 : d1 ^ 2 ≤ j ^ 2)
    (h2 : d2 ^ 2 ≤ j ^ 2) :
    norm3 ⟨d1, d2, 0⟩ ≤ Real.sqrt 2 * j := by
  unfold norm3
  have hle : d1 ^ 2 + d2 ^ 2 + 0 ^ 2 ≤ 2 * j ^ 2 := by nlinarith
  calc Real.sqrt (d1 ^ 2 + d2 ^ 2 + 0 ^ 2)
      ≤ Real.sqrt (2 * j ^ 2) := Real.sqrt_le_sqrt hle
    _ = Real.sqrt 2 * Real.sqrt (j ^ 2) := Real.sqrt_mul (by norm_num) _
    _ = Real.sqrt 2 * j := by rw [Real.sqrt_sq hj]

/-- C4 (amended): for a living agent, nonnegative `maxSpeed` and `jitter` and
unit draws in `[0, 1]`, the post-decision speed is bounded by
`max maxSpeed (1e-4 + √2 · jitter)`: the clamp guarantees `maxSpeed`, and the
anti-stall jitter — which runs *after* the clamp, when the clamped speed is
below `1e-4` — adds at most `√2 · jitter` on top of that threshold. -/
theorem decide_speed_bound (a : Agent) (ms msl aw sw j : ℝ) (rng : Rng)
    (halive : a.is_alive = true) (hms : 0 ≤ ms) (hj : 0 ≤ j)
    (hstream : ∀ n, 0 ≤ rng.stream n ∧ rng.stream n ≤ 1) :
    norm3 (a.decide ms msl aw sw j rng).1.velocity
      ≤ max ms (1e-4 + Real.sqrt 2 * j) := by
  rw [decide_velocity a ms msl aw sw j rng halive]
  set v4 := clampStage ms (sepStage a sw (alignStage a aw
    (scale (resistanceOf a.slope_magnitude msl) a.velocity))) with hv4
  have hclamp : norm3 v4 ≤ ms := clampStage_le ms _ hms
  by_cases hjit : norm3 v4 < 1e-4
  · rw [if_pos hjit]
    have hb1 := uniform_sq_le j (rng.stream rng.idx) hj
      (hstream rng.idx).1 (hstream rng.idx).2
    have hb2 := uniform_sq_le j (rng.stream (rng.idx + 1)) hj
      (hstream (rng.idx + 1)).1 (hstream (rng.idx + 1)).2
    have htri := norm3_add_le v4
      ⟨uniform (-j) j (rng.stream rng.idx),
        uniform (-j) j (rng.stream (rng.idx + 1)), 0⟩
    have hjn := jitter_norm_le (uniform (-j) j (rng.stream rng.idx))
      (uniform (-j) j (rng.stream (rng.idx + 1))) j hj hb1 hb2
    have hbound : norm3 (v4 + ⟨uniform (-j) j (rng.stream rng.idx),
        uniform (-j) j (rng.stream (rng.idx + 1)), 0⟩)
        ≤ 1e-4 + Real.sqrt 2 * j := by
      calc norm3 (v4 + ⟨uniform (-j) j (rng.stream rng.idx),
            uniform (-j) j (rng.stream (rng.idx + 1)), 0⟩)
          ≤ norm3 v4 + norm3 ⟨uniform (-j) j (rng.stream rng.idx),
              uniform (-j) j (rng.stream (rng.idx + 1)), 0⟩ := htri
        _ ≤ 1e-4 + Real.sqrt 2 * j := by
            have := le_of_lt hjit
            linarith
    exact le_trans hbound (le_max_right _ _)
  · rw [if_neg hjit]
    exact le_trans hclamp (le_max_left _ _)

/-- C4 witness: the amended bound at a concrete living agent and concrete
parameters. -/
theorem decide_speed_bound_witness :
    zeroAgent.is_alive = true ∧ (0 : ℝ) ≤ 0.5 ∧ (0 : ℝ) ≤ 0.01 ∧
    (∀ n, 0 ≤ halfRng.stream n ∧ halfRng.stream n ≤ 1) ∧
    norm3 (zeroAgent.decide 0.5 0.8 0.05 0.12 0.01 halfRng).1.velocity
      ≤ max 0.5 (1e-4 + Real.sqrt 2 * 0.01) := by
  have hstream : ∀ n, 0 ≤ halfRng.stream n ∧ halfRng.stream n ≤ 1 := by
    intro n
    unfold halfRng
    norm_num
  exact ⟨rfl, by norm_num, by norm_num, hstream,
    decide_speed_bound zeroAgent 0.5 0.8 0.05 0.12 0.01 halfRng rfl
      (by norm_num) (by norm_num) hstream⟩

/-- The post-decision velocity of the stationary `zeroAgent` at jitter
amplitude `0.01` with unit draws of 1: both planar components get the full
`+0.01` perturbation. -/
theorem zero_decide_eval :
    (zeroAgent.decide 1e-6 0.8 0.05 0.12 0.01 onesRng).1.velocity
      = ⟨0.01, 0.01, 0⟩ := by
  rw [decide_velocity zeroAgent 1e-6 0.8 0.05 0.12 0.01 onesRng rfl]
  have hscale : scale (resistanceOf zeroAgent.slope_magnitude 0.8)
      zeroAgent.velocity = ⟨0, 0, 0⟩ := by
    unfold zeroAgent Agent.init scale
    ext <;> simp
  have halign : alignStage zeroAgent 0.05 ⟨0, 0, 0⟩ = ⟨0, 0, 0⟩ := by
    unfold alignStage zeroAgent Agent.init
    rw [if_neg]
    simp only
    rw [show ((0 : Vec3) : Vec3) = ⟨0, 0, 0⟩ from rfl]
    unfold norm3
    norm_num
  have hsep : sepStage zeroAgent 0.12 ⟨0, 0, 0⟩ = ⟨0, 0, 0⟩ := by
    unfold sepStage zeroAgent Agent.init
    simp
  have hclamp : clampStage 1e-6 ⟨0, 0, 0⟩ = ⟨0, 0, 0⟩ := by
    unfold clampStage
    rw [if_neg]
    unfold norm3
    norm_num
  rw [hscale, halign, hsep, hclamp]
  rw [if_pos (by unfold norm3; norm_num)]
  unfold onesRng uniform
  ext <;> simp [Vec3.add_def] <;> norm_num

/-- C4 counterexample: with `maxSpeed = 1e-6` and jitter amplitude `0.01`,
the stationary agent's post-decision speed is `√0.0002 ≈ 0.014 > maxSpeed` —
the anti-stall jitter runs after the speed clamp and can exceed it. -/
theorem jitter_exceeds_max_speed :
    norm3 (zeroAgent.decide 1e-6 0.8 0.05 0.12 0.01 onesRng).1.velocity
      > 1e-6 := by
  rw [zero_decide_eval]
  unfold norm3
  rw [show ((0.01 : ℝ) ^ 2 + 0.01 ^ 2 + 0 ^ 2) = 0.0002 by norm_num]
  rw [gt_iff_lt, Real.lt_sqrt (by norm_num)]
  norm_num

/-- C1 (amended): the population step updates agents strictly sequentially
over the shared list — in a two-agent population the first agent is updated
against the pre-step list, and the second agent's whole update (its sensing
included) reads the list already containing the first agent's updated state,
not a pre-step snapshot. -/
theorem second_agent_senses_updated_first (o : Oracle) (p : Params)
    (a b : Agent) (rng : Rng) (nid : ℕ) :
    (stepLoop o p (List.range 2) ⟨[a, b], [], [], rng, nid⟩).cur =
      [(a.update [a, b] o p rng nid).1,
        (b.update [(a.update [a, b] o p rng nid).1, b] o p
          (a.update [a, b] o p rng nid).2.2.1
          (a.update [a, b] o p rng nid).2.2.2).1] := by
  rw [show List.range 2 = [0, 1] from rfl]
  simp only [stepLoop]
  simp

/-- Square root of 4. -/
theorem sqrt_four : Real.sqrt 4 = 2 := by
  rw [show (4 : ℝ) = 2 ^ 2 by norm_num, Real.sqrt_sq (by norm_num)]

/-- First component of the zero vector. -/
theorem Vec3.x_zero : (0 : Vec3).x = 0 := rfl

/-- Second component of the zero vector. -/
theorem Vec3.y_zero : (0 : Vec3).y = 0 := rfl

/-- Third component of the zero vector. -/
theorem Vec3.z_zero : (0 : Vec3).z = 0 := rfl

/-- Sensing `zeroAgent` on the steep surface: projection succeeds at `(0,0)`,
the finite-difference slope sample is `(2,0,0)` with magnitude 2, and the
agent has no neighbors. -/
theorem steep_sense_eval :
    zeroAgent.sense [zeroAgent] steepOracle (some 1.0) =
      { id := 0,
         position := ⟨0, 0, 0⟩,
         velocity := ⟨0, 0, 0⟩,
         age := 0,
         is_alive := true,
         path := [⟨0, 0, 0⟩],
         uv := some (0, 0),
         curvature_mean := 0,
         curvature_dir := 0,
         slope_vector := ⟨2, 0, 0⟩,
         slope_magnitude := 2,
         neighbors := [] } := by
  unfold Agent.sense get_uv steepOracle zeroAgent Agent.init sample_curvature
    sample_slope
  norm_num [dist3, norm3, Vec3.sub_def, Vec3.add_def, Agent.mk.injEq,
    Vec3.mk.injEq, sqrt_four, Vec3.zero_def]

/-- Deciding for the sensed steep-surface agent: the slope resistance scales
the zero velocity, no stage changes it, and the anti-stall jitter draws two
centered samples that cancel — the velocity stays zero and two unit draws are
consumed. -/
theorem steep_decide_eval :
    (({ id := 0,
        position := ⟨0, 0, 0⟩,
        velocity := ⟨0, 0, 0⟩,
        age := 0,
        is_alive := true,
        path := [⟨0, 0, 0⟩],
        uv := some (0, 0),
        curvature_mean := 0,
        curvature_dir := 0,
        slope_vector := ⟨2, 0, 0⟩,
        slope_magnitude := 2,
        neighbors := [] } : Agent).decide 0.5 0.8 0.05 0.12 0.01 halfRng) =
      ({ id := 0,
         position := ⟨0, 0, 0⟩,
         velocity := ⟨0, 0, 0⟩,
         age := 0,
         is_alive := true,
         path := [⟨0, 0, 0⟩],
         uv := some (0, 0),
         curvature_mean := 0,
         curvature_dir := 0,
         slope_vector := ⟨2, 0, 0⟩,
         slope_magnitude := 2,
         neighbors := [] }, ⟨halfRng.stream, 2⟩) := by
  unfold Agent.decide halfRng
  norm_num [Rng.next, uniform, scale, resistanceOf, alignStage, sepStage,
    awayVector, clampStage, norm3, Vec3.add_def, Vec3.zero_def,
    Vec3.x_zero, Vec3.y_zero, Vec3.z_zero,
    Agent.mk.injEq, Vec3.mk.injEq, Real.sqrt_zero]

/-- Moving the steep-surface agent: the zero velocity keeps it at the origin,
re-projection lands there too, and the trail gains one entry. -/
theorem steep_move_eval :
    (({ id := 0,
        position := ⟨0, 0, 0⟩,
        velocity := ⟨0, 0, 0⟩,
        age := 0,
        is_alive := true,
        path := [⟨0, 0, 0⟩],
        uv := some (0, 0),
        curvature_mean := 0,
        curvature_dir := 0,
        slope_vector := ⟨2, 0, 0⟩,
        slope_magnitude := 2,
        neighbors := [] } : Agent).move steepOracle) =
      { id := 0,
         position := ⟨0, 0, 0⟩,
         velocity := ⟨0, 0, 0⟩,
         age := 0,
         is_alive := true,
         path := [⟨0, 0, 0⟩, ⟨0, 0, 0⟩],
         uv := some (0, 0),
         curvature_mean := 0,
         curvature_dir := 0,
         slope_vector := ⟨2, 0, 0⟩,
         slope_magnitude := 2,
         neighbors := [] } := by
  unfold Agent.move steepOracle
  norm_num [Vec3.add_def, Agent.mk.injEq, Vec3.mk.injEq]

/-- The full update of `zeroAgent` on the steep surface: the sensed slope
magnitude 2 exceeds the default `slope_kill = 1.2`, so the agent dies after
its first step and spawns nothing. -/
theorem steep_update_eval :
    zeroAgent.update [zeroAgent] steepOracle defaultParams halfRng 0 =
      ({ id := 0,
          position := ⟨0, 0, 0⟩,
          velocity := ⟨0, 0, 0⟩,
          age := 1,
          is_alive := false,
          path := [⟨0, 0, 0⟩, ⟨0, 0, 0⟩],
          uv := some (0, 0),
          curvature_mean := 0,
          curvature_dir := 0,
          slope_vector := ⟨2, 0, 0⟩,
          slope_magnitude := 2,
          neighbors := [] },
        none, ⟨halfRng.stream, 2⟩, 0) := by
  rw [update_alive zeroAgent [zeroAgent] steepOracle defaultParams halfRng 0 rfl]
  rw [show defaultParams.visionRadius = some 1.0 from rfl]
  rw [show defaultParams.maxSpeed = 0.5 from rfl,
    show defaultParams.maxSlope = 0.8 from rfl,
    show defaultParams.alignmentWeight = 0.05 from rfl,
    show defaultParams.separationWeight = 0.12 from rfl,
    show defaultParams.jitter = 0.01 from rfl]
  rw [steep_sense_eval, steep_decide_eval]
  simp only
  rw [steep_move_eval]
  unfold Agent.lifecycle
  rw [if_pos (by norm_num [defaultParams])]


/-- C5 counterexample: the standalone simulator step keeps an agent whose
alive flag became false during the step as a member of the resulting
population (`agents = agents + new_agents` never filters the dead), so it
stays visible to sensing in later steps — the claimed exclusion fails for
this step driver. -/
theorem sim_step_retains_dead :
    ((simStep steepOracle [zeroAgent] halfRng 0).1.map fun ag => ag.is_alive)
      = [false] := by
  unfold simStep
  rw [show List.range (List.length [zeroAgent]) = [0] from rfl]
  simp only [stepLoop, List.getD_cons_zero]
  rw [steep_update_eval]
  simp

/-- Square root of 100. -/
theorem sqrt_hundred : Real.sqrt 100 = 10 := by
  rw [show (100 : ℝ) = 10 ^ 2 by norm_num, Real.sqrt_sq (by norm_num)]

/-- Square root of 81. -/
theorem sqrt_eightyone : Real.sqrt 81 = 9 := by
  rw [show (81 : ℝ) = 9 ^ 2 by norm_num, Real.sqrt_sq (by norm_num)]

/-- Slope resistance at zero slope with `maxSlope = 0.8`: no damping. -/
theorem res_zero : resistanceOf 0 (4 / 5) = 1 := by
  unfold resistanceOf
  rw [if_pos (by norm_num), max_eq_right (by norm_num)]
  norm_num

/-- The distance clamp `max(d, 1e-6)` at distance 1. -/
theorem max_one : max (1 : ℝ) (1 / 1000000) = 1 := by
  rw [max_eq_left]
  norm_num

/-- Sensing `agentA` against the pre-step pair: `agentB` is one unit away, within vision radius 1. -/
theorem c1A_sense :
    agentA.sense [agentA, agentB] freeOracle (some 1) =
      { id := 0,
          position := ⟨0, 0, 0⟩,
          velocity := ⟨10, 0, 0⟩,
          age := 0,
          is_alive := true,
          path := [⟨0, 0, 0⟩],
          uv := none,
          curvature_mean := 0,
          curvature_dir := 0,
          slope_vector := 0,
          slope_magnitude := 0,
          neighbors := [(⟨1, ⟨1, 0, 0⟩⟩, 1)] } := by
  unfold Agent.sense get_uv freeOracle agentA agentB Agent.init
  norm_num [dist3, norm3, Vec3.sub_def, Agent.mk.injEq, Vec3.mk.injEq,
    Real.sqrt_one, Vec3.zero_def, List.filterMap_cons]

/-- Deciding for the sensed `agentA`: no stage changes the fast velocity `(10,0,0)` (separation weight 0, clamp 100, jitter not triggered), and no draw is consumed. -/
theorem c1A_decide :
    (({ id := 0,
          position := ⟨0, 0, 0⟩,
          velocity := ⟨10, 0, 0⟩,
          age := 0,
          is_alive := true,
          path := [⟨0, 0, 0⟩],
          uv := none,
          curvature_mean := 0,
          curvature_dir := 0,
          slope_vector := 0,
          slope_magnitude := 0,
          neighbors := [(⟨1, ⟨1, 0, 0⟩⟩, 1)] } : Agent).decide 100 0.8 0.05 0 0 halfRng) =
      ({ id := 0,
          position := ⟨0, 0, 0⟩,
          velocity := ⟨10, 0, 0⟩,
          age := 0,
          is_alive := true,
          path := [⟨0, 0, 0⟩],
          uv := none,
          curvature_mean := 0,
          curvature_dir := 0,
          slope_vector := 0,
          slope_magnitude := 0,
          neighbors := [(⟨1, ⟨1, 0, 0⟩⟩, 1)] }, halfRng) := by
  unfold Agent.decide
  norm_num [Rng.next, uniform, scale, alignStage, sepStage, awayVector,
    clampStage, unitize, norm3, Vec3.add_def, Vec3.sub_def, Vec3.zero_def,
    Vec3.x_zero, Vec3.y_zero, Vec3.z_zero, res_zero, max_one,
    Real.sqrt_one, sqrt_hundred, Agent.mk.injEq, Vec3.mk.injEq]

/-- `agentA` moves to `(10,0,0)` (no projection) and extends its trail. -/
theorem c1A_move :
    (({ id := 0,
          position := ⟨0, 0, 0⟩,
          velocity := ⟨10, 0, 0⟩,
          age := 0,
          is_alive := true,
          path := [⟨0, 0, 0⟩],
          uv := none,
          curvature_mean := 0,
          curvature_dir := 0,
          slope_vector := 0,
          slope_magnitude := 0,
          neighbors := [(⟨1, ⟨1, 0, 0⟩⟩, 1)] } : Agent).move freeOracle) =
      { id := 0,
          position := ⟨10, 0, 0⟩,
          velocity := ⟨10, 0, 0⟩,
          age := 0,
          is_alive := true,
          path := [⟨0, 0, 0⟩, ⟨10, 0, 0⟩],
          uv := none,
          curvature_mean := 0,
          curvature_dir := 0,
          slope_vector := 0,
          slope_magnitude := 0,
          neighbors := [(⟨1, ⟨1, 0, 0⟩⟩, 1)] } := by
  unfold Agent.move freeOracle
  norm_num [Vec3.add_def, Agent.mk.injEq, Vec3.mk.injEq]

/-- Lifecycle for the moved `agentA`: it survives, and the spawn draw 1/2 is not below 0.02. -/
theorem c1A_lifecycle :
    (({ id := 0,
          position := ⟨10, 0, 0⟩,
          velocity := ⟨10, 0, 0⟩,
          age := 0,
          is_alive := true,
          path := [⟨0, 0, 0⟩, ⟨10, 0, 0⟩],
          uv := none,
          curvature_mean := 0,
          curvature_dir := 0,
          slope_vector := 0,
          slope_magnitude := 0,
          neighbors := [(⟨1, ⟨1, 0, 0⟩⟩, 1)] } : Agent).lifecycle freeOracle seqParams halfRng 0) =
      ({ id := 0,
          position := ⟨10, 0, 0⟩,
          velocity := ⟨10, 0, 0⟩,
          age := 1,
          is_alive := true,
          path := [⟨0, 0, 0⟩, ⟨10, 0, 0⟩],
          uv := none,
          curvature_mean := 0,
          curvature_dir := 0,
          slope_vector := 0,
          slope_magnitude := 0,
          neighbors := [(⟨1, ⟨1, 0, 0⟩⟩, 1)] },
        none, ⟨halfRng.stream, 1⟩, 0) := by
  unfold Agent.lifecycle seqParams runScriptParams halfRng
  norm_num [Rng.next, Agent.mk.injEq]

/-- The full first-agent update of the sequential step. -/
theorem c1A_update :
    agentA.update [agentA, agentB] freeOracle seqParams halfRng 0 =
      ({ id := 0,
          position := ⟨10, 0, 0⟩,
          velocity := ⟨10, 0, 0⟩,
          age := 1,
          is_alive := true,
          path := [⟨0, 0, 0⟩, ⟨10, 0, 0⟩],
          uv := none,
          curvature_mean := 0,
          curvature_dir := 0,
          slope_vector := 0,
          slope_magnitude := 0,
          neighbors := [(⟨1, ⟨1, 0, 0⟩⟩, 1)] },
        none, ⟨halfRng.stream, 1⟩, 0) := by
  rw [update_alive agentA [agentA, agentB] freeOracle seqParams halfRng 0 rfl]
  rw [show seqParams.visionRadius = some 1 from rfl,
    show seqParams.maxSpeed = 100 from rfl,
    show seqParams.maxSlope = 0.8 from rfl,
    show seqParams.alignmentWeight = 0.05 from rfl,
    show seqParams.separationWeight = 0 from rfl,
    show seqParams.jitter = 0 from rfl]
  rw [c1A_sense, c1A_decide]
  simp only
  rw [c1A_move, c1A_lifecycle]

/-- Sensing `agentB` against the list holding the already-updated first agent: the distance to its moved position `(10,0,0)` is 9, beyond vision radius 1, so no neighbor is collected. -/
theorem c1B_sense :
    agentB.sense [{ id := 0,
                      position := ⟨10, 0, 0⟩,
                      velocity := ⟨10, 0, 0⟩,
                      age := 1,
                      is_alive := true,
                      path := [⟨0, 0, 0⟩, ⟨10, 0, 0⟩],
                      uv := none,
                      curvature_mean := 0,
                      curvature_dir := 0,
                      slope_vector := 0,
                      slope_magnitude := 0,
                      neighbors := [(⟨1, ⟨1, 0, 0⟩⟩, 1)] }, agentB] freeOracle (some 1) =
      { id := 1,
          position := ⟨1, 0, 0⟩,
          velocity := ⟨0, 0, 0⟩,
          age := 0,
          is_alive := true,
          path := [⟨1, 0, 0⟩],
          uv := none,
          curvature_mean := 0,
          curvature_dir := 0,
          slope_vector := 0,
          slope_magnitude := 0,
          neighbors := [] } := by
  unfold Agent.sense get_uv freeOracle agentB Agent.init
  norm_num [dist3, norm3, Vec3.sub_def, Agent.mk.injEq, Vec3.mk.injEq,
    sqrt_eightyone, Vec3.zero_def, List.filterMap_cons]

/-- Deciding for `agentB` after the in-place sensing: the zero velocity triggers the anti-stall jitter, whose zero amplitude leaves it unchanged while consuming two draws. -/
theorem c1B_decide :
    (({ id := 1,
          position := ⟨1, 0, 0⟩,
          velocity := ⟨0, 0, 0⟩,
          age := 0,
          is_alive := true,
          path := [⟨1, 0, 0⟩],
          uv := none,
          curvature_mean := 0,
          curvature_dir := 0,
          slope_vector := 0,
          slope_magnitude := 0,
          neighbors := [] } : Agent).decide 100 0.8 0.05 0 0 (⟨halfRng.stream, 1⟩ : Rng)) =
      ({ id := 1,
          position := ⟨1, 0, 0⟩,
          velocity := ⟨0, 0, 0⟩,
          age := 0,
          is_alive := true,
          path := [⟨1, 0, 0⟩],
          uv := none,
          curvature_mean := 0,
          curvature_dir := 0,
          slope_vector := 0,
          slope_magnitude := 0,
          neighbors := [] }, ⟨halfRng.stream, 3⟩) := by
  unfold Agent.decide
  norm_num [Rng.next, uniform, scale, alignStage, sepStage, awayVector,
    clampStage, unitize, norm3, Vec3.add_def, Vec3.sub_def, Vec3.zero_def,
    Vec3.x_zero, Vec3.y_zero, Vec3.z_zero, Real.sqrt_zero,
    Agent.mk.injEq, Vec3.mk.injEq]

/-- `agentB` stays in place and extends its trail. -/
theorem c1B_move :
    (({ id := 1,
          position := ⟨1, 0, 0⟩,
          velocity := ⟨0, 0, 0⟩,
          age := 0,
          is_alive := true,
          path := [⟨1, 0, 0⟩],
          uv := none,
          curvature_mean := 0,
          curvature_dir := 0,
          slope_vector := 0,
          slope_magnitude := 0,
          neighbors := [] } : Agent).move freeOracle) =
      { id := 1,
          position := ⟨1, 0, 0⟩,
          velocity := ⟨0, 0, 0⟩,
          age := 0,
          is_alive := true,
          path := [⟨1, 0, 0⟩, ⟨1, 0, 0⟩],
          uv := none,
          curvature_mean := 0,
          curvature_dir := 0,
          slope_vector := 0,
          slope_magnitude := 0,
          neighbors := [] } := by
  unfold Agent.move freeOracle
  norm_num [Vec3.add_def, Agent.mk.injEq, Vec3.mk.injEq]

/-- Lifecycle for `agentB`: it survives and the spawn draw 1/2 is not below 0.02. -/
theorem c1B_lifecycle :
    (({ id := 1,
          position := ⟨1, 0, 0⟩,
          velocity := ⟨0, 0, 0⟩,
          age := 0,
          is_alive := true,
          path := [⟨1, 0, 0⟩, ⟨1, 0, 0⟩],
          uv := none,
          curvature_mean := 0,
          curvature_dir := 0,
          slope_vector := 0,
          slope_magnitude := 0,
          neighbors := [] } : Agent).lifecycle freeOracle seqParams (⟨halfRng.stream, 3⟩ : Rng) 0) =
      ({ id := 1,
          position := ⟨1, 0, 0⟩,
          velocity := ⟨0, 0, 0⟩,
          age := 1,
          is_alive := true,
          path := [⟨1, 0, 0⟩, ⟨1, 0, 0⟩],
          uv := none,
          curvature_mean := 0,
          curvature_dir := 0,
          slope_vector := 0,
          slope_magnitude := 0,
          neighbors := [] },
        none, ⟨halfRng.stream, 4⟩, 0) := by
  unfold Agent.lifecycle seqParams runScriptParams halfRng
  norm_num [Rng.next, Agent.mk.injEq]

/-- The full second-agent update of the sequential step. -/
theorem c1B_update :
    agentB.update [{ id := 0,
                      position := ⟨10, 0, 0⟩,
                      velocity := ⟨10, 0, 0⟩,
                      age := 1,
                      is_alive := true,
                      path := [⟨0, 0, 0⟩, ⟨10, 0, 0⟩],
                      uv := none,
                      curvature_mean := 0,
                      curvature_dir := 0,
                      slope_vector := 0,
                      slope_magnitude := 0,
                      neighbors := [(⟨1, ⟨1, 0, 0⟩⟩, 1)] }, agentB] freeOracle seqParams (⟨halfRng.stream, 1⟩ : Rng) 0 =
      ({ id := 1,
          position := ⟨1, 0, 0⟩,
          velocity := ⟨0, 0, 0⟩,
          age := 1,
          is_alive := true,
          path := [⟨1, 0, 0⟩, ⟨1, 0, 0⟩],
          uv := none,
          curvature_mean := 0,
          curvature_dir := 0,
          slope_vector := 0,
          slope_magnitude := 0,
          neighbors := [] },
        none, ⟨halfRng.stream, 4⟩, 0) := by
  rw [update_alive agentB _ freeOracle seqParams _ 0 rfl]
  rw [show seqParams.visionRadius = some 1 from rfl,
    show seqParams.maxSpeed = 100 from rfl,
    show seqParams.maxSlope = 0.8 from rfl,
    show seqParams.alignmentWeight = 0.05 from rfl,
    show seqParams.separationWeight = 0 from rfl,
    show seqParams.jitter = 0 from rfl]
  rw [c1B_sense, c1B_decide]
  simp only
  rw [c1B_move, c1B_lifecycle]


/-- Snapshot sensing for `agentB` against the pre-step pair: `agentA` at its original position is one unit away and is collected. -/
theorem c1S_senseB :
    agentB.sense [agentA, agentB] freeOracle (some 1) =
      { id := 1,
          position := ⟨1, 0, 0⟩,
          velocity := ⟨0, 0, 0⟩,
          age := 0,
          is_alive := true,
          path := [⟨1, 0, 0⟩],
          uv := none,
          curvature_mean := 0,
          curvature_dir := 0,
          slope_vector := 0,
          slope_magnitude := 0,
          neighbors := [(⟨0, ⟨0, 0, 0⟩⟩, 1)] } := by
  unfold Agent.sense get_uv freeOracle agentA agentB Agent.init
  norm_num [dist3, norm3, Vec3.sub_def, Agent.mk.injEq, Vec3.mk.injEq,
    Real.sqrt_one, Vec3.zero_def, List.filterMap_cons]

/-- Deciding for the snapshot-sensed `agentB`: the separation term (weight 0) leaves the zero velocity unchanged, and the jitter consumes two draws. -/
theorem c1S_decideB :
    (({ id := 1,
          position := ⟨1, 0, 0⟩,
          velocity := ⟨0, 0, 0⟩,
          age := 0,
          is_alive := true,
          path := [⟨1, 0, 0⟩],
          uv := none,
          curvature_mean := 0,
          curvature_dir := 0,
          slope_vector := 0,
          slope_magnitude := 0,
          neighbors := [(⟨0, ⟨0, 0, 0⟩⟩, 1)] } : Agent).decide 100 0.8 0.05 0 0 (⟨halfRng.stream, 1⟩ : Rng)) =
      ({ id := 1,
          position := ⟨1, 0, 0⟩,
          velocity := ⟨0, 0, 0⟩,
          age := 0,
          is_alive := true,
          path := [⟨1, 0, 0⟩],
          uv := none,
          curvature_mean := 0,
          curvature_dir := 0,
          slope_vector := 0,
          slope_magnitude := 0,
          neighbors := [(⟨0, ⟨0, 0, 0⟩⟩, 1)] }, ⟨halfRng.stream, 3⟩) := by
  unfold Agent.decide
  norm_num [Rng.next, uniform, scale, alignStage, sepStage, awayVector,
    clampStage, unitize, norm3, Vec3.add_def, Vec3.sub_def, Vec3.zero_def,
    Vec3.x_zero, Vec3.y_zero, Vec3.z_zero, Real.sqrt_zero, max_one,
    Real.sqrt_one, Agent.mk.injEq, Vec3.mk.injEq]

/-- The snapshot-sensed `agentB` stays in place and extends its trail. -/
theorem c1S_moveB :
    (({ id := 1,
          position := ⟨1, 0, 0⟩,
          velocity := ⟨0, 0, 0⟩,
          age := 0,
          is_alive := true,
          path := [⟨1, 0, 0⟩],
          uv := none,
          curvature_mean := 0,
          curvature_dir := 0,
          slope_vector := 0,
          slope_magnitude := 0,
          neighbors := [(⟨0, ⟨0, 0, 0⟩⟩, 1)] } : Agent).move freeOracle) =
      { id := 1,
          position := ⟨1, 0, 0⟩,
          velocity := ⟨0, 0, 0⟩,
          age := 0,
          is_alive := true,
          path := [⟨1, 0, 0⟩, ⟨1, 0, 0⟩],
          uv := none,
          curvature_mean := 0,
          curvature_dir := 0,
          slope_vector := 0,
          slope_magnitude := 0,
          neighbors := [(⟨0, ⟨0, 0, 0⟩⟩, 1)] } := by
  unfold Agent.move freeOracle
  norm_num [Vec3.add_def, Agent.mk.injEq, Vec3.mk.injEq]

/-- Lifecycle for the snapshot-sensed `agentB`: it survives without spawning. -/
theorem c1S_lifecycleB :
    (({ id := 1,
          position := ⟨1, 0, 0⟩,
          velocity := ⟨0, 0, 0⟩,
          age := 0,
          is_alive := true,
          path := [⟨1, 0, 0⟩, ⟨1, 0, 0⟩],
          uv := none,
          curvature_mean := 0,
          curvature_dir := 0,
          slope_vector := 0,
          slope_magnitude := 0,
          neighbors := [(⟨0, ⟨0, 0, 0⟩⟩, 1)] } : Agent).lifecycle freeOracle seqParams (⟨halfRng.stream, 3⟩ : Rng) 0) =
      ({ id := 1,
          position := ⟨1, 0, 0⟩,
          velocity := ⟨0, 0, 0⟩,
          age := 1,
          is_alive := true,
          path := [⟨1, 0, 0⟩, ⟨1, 0, 0⟩],
          uv := none,
          curvature_mean := 0,
          curvature_dir := 0,
          slope_vector := 0,
          slope_magnitude := 0,
          neighbors := [(⟨0, ⟨0, 0, 0⟩⟩, 1)] },
        none, ⟨halfRng.stream, 4⟩, 0) := by
  unfold Agent.lifecycle seqParams runScriptParams halfRng
  norm_num [Rng.next, Agent.mk.injEq]

/-- Phase 2 of the snapshot step for the first sensed agent. -/
theorem c1S_phase2A :
    snapshotPhase2 ({ id := 0,
                      position := ⟨0, 0, 0⟩,
                      velocity := ⟨10, 0, 0⟩,
                      age := 0,
                      is_alive := true,
                      path := [⟨0, 0, 0⟩],
                      uv := none,
                      curvature_mean := 0,
                      curvature_dir := 0,
                      slope_vector := 0,
                      slope_magnitude := 0,
                      neighbors := [(⟨1, ⟨1, 0, 0⟩⟩, 1)] } : Agent)
      freeOracle seqParams halfRng 0 =
      ({ id := 0,
          position := ⟨10, 0, 0⟩,
          velocity := ⟨10, 0, 0⟩,
          age := 1,
          is_alive := true,
          path := [⟨0, 0, 0⟩, ⟨10, 0, 0⟩],
          uv := none,
          curvature_mean := 0,
          curvature_dir := 0,
          slope_vector := 0,
          slope_magnitude := 0,
          neighbors := [(⟨1, ⟨1, 0, 0⟩⟩, 1)] },
        none, ⟨halfRng.stream, 1⟩, 0) := by
  unfold snapshotPhase2
  rw [show seqParams.maxSpeed = 100 from rfl,
    show seqParams.maxSlope = 0.8 from rfl,
    show seqParams.alignmentWeight = 0.05 from rfl,
    show seqParams.separationWeight = 0 from rfl,
    show seqParams.jitter = 0 from rfl]
  simp only [Bool.not_true, Bool.false_eq_true, if_false]
  rw [c1A_decide]
  simp only
  rw [c1A_move, c1A_lifecycle]

/-- Phase 2 of the snapshot step for the second sensed agent. -/
theorem c1S_phase2B :
    snapshotPhase2 ({ id := 1,
                      position := ⟨1, 0, 0⟩,
                      velocity := ⟨0, 0, 0⟩,
                      age := 0,
                      is_alive := true,
                      path := [⟨1, 0, 0⟩],
                      uv := none,
                      curvature_mean := 0,
                      curvature_dir := 0,
                      slope_vector := 0,
                      slope_magnitude := 0,
                      neighbors := [(⟨0, ⟨0, 0, 0⟩⟩, 1)] } : Agent)
      freeOracle seqParams (⟨halfRng.stream, 1⟩ : Rng) 0 =
      ({ id := 1,
          position := ⟨1, 0, 0⟩,
          velocity := ⟨0, 0, 0⟩,
          age := 1,
          is_alive := true,
          path := [⟨1, 0, 0⟩, ⟨1, 0, 0⟩],
          uv := none,
          curvature_mean := 0,
          curvature_dir := 0,
          slope_vector := 0,
          slope_magnitude := 0,
          neighbors := [(⟨0, ⟨0, 0, 0⟩⟩, 1)] },
        none, ⟨halfRng.stream, 4⟩, 0) := by
  unfold snapshotPhase2
  rw [show seqParams.maxSpeed = 100 from rfl,
    show seqParams.maxSlope = 0.8 from rfl,
    show seqParams.alignmentWeight = 0.05 from rfl,
    show seqParams.separationWeight = 0 from rfl,
    show seqParams.jitter = 0 from rfl]
  simp only [Bool.not_true, Bool.false_eq_true, if_false]
  rw [c1S_decideB]
  simp only
  rw [c1S_moveB, c1S_lifecycleB]

/-- C1 counterexample: in the code's sequential in-place step, the second agent's sensing observes the first agent's already-moved position — it ends the step with no neighbors, although the pre-step distance (1) is within the vision radius; under the spec's snapshot semantics both agents end the step with one neighbor. -/
theorem sequential_sensing_counterexample :
    ((runStep freeOracle seqParams [agentA, agentB] halfRng 0).1.map
      fun ag => ag.neighbors.length) = [1, 0] ∧
    ((snapshotStep freeOracle seqParams [agentA, agentB] halfRng 0).1.map
      fun ag => ag.neighbors.length) = [1, 1] := by
  constructor
  · unfold runStep
    rw [show List.range (List.length [agentA, agentB]) = [0, 1] from rfl]
    simp only [stepLoop, List.getD_cons_zero, List.getD_cons_succ,
      List.set_cons_zero, List.set_cons_succ]
    rw [c1A_update]
    simp only [List.set_cons_zero, List.getD_cons_succ, List.getD_cons_zero]
    rw [c1B_update]
    simp
  · unfold snapshotStep
    rw [show seqParams.visionRadius = some 1 from rfl]
    simp only [List.map_cons, List.map_nil]
    rw [c1A_sense, c1S_senseB]
    simp only [snapshotLoop]
    rw [c1S_phase2A]
    simp only
    rw [c1S_phase2B]
    simp
